import Mathlib

/-!
# Verification of the WOO tokenomics simulation engine

A shallow embedding of `src/js/simulation.js` (class `WOOSimulation`) and of
the configuration constants in `js/config.js` (`CONFIG.INITIAL_STATE`,
`CONFIG.FIXED_PARAMS`).

JavaScript numbers are modelled by `JSNum`: an exact rational together with
the special values `nan`, `inf` (+Infinity) and `ninf` (-Infinity).
Arithmetic on finite values is exact (no rounding, no overflow) while the
propagation rules for the special values follow IEEE-754 / JavaScript
semantics.  Negative zero is not distinguished from zero.
-/

inductive JSNum where
  | num : ℚ → JSNum
  | nan : JSNum
  | inf : JSNum
  | ninf : JSNum
deriving DecidableEq, Repr

namespace JSNum

/-- JavaScript `isFinite`. -/
def isFinite : JSNum → Bool
  | num _ => true
  | _ => false

/-- JavaScript `isNaN`. -/
def isNaN : JSNum → Bool
  | nan => true
  | _ => false

/-- JavaScript addition. -/
def add : JSNum → JSNum → JSNum
  | nan, _ => nan
  | _, nan => nan
  | num a, num b => num (a + b)
  | num _, inf => inf
  | num _, ninf => ninf
  | inf, num _ => inf
  | ninf, num _ => ninf
  | inf, inf => inf
  | ninf, ninf => ninf
  | inf, ninf => nan
  | ninf, inf => nan

/-- JavaScript negation. -/
def neg : JSNum → JSNum
  | num a => num (-a)
  | nan => nan
  | inf => ninf
  | ninf => inf

/-- JavaScript subtraction (`a - b = a + (-b)`, exact on finite values). -/
def sub (a b : JSNum) : JSNum := add a (neg b)

/-- JavaScript multiplication. -/
def mul : JSNum → JSNum → JSNum
  | nan, _ => nan
  | _, nan => nan
  | num a, num b => num (a * b)
  | num a, inf => if a = 0 then nan else if 0 < a then inf else ninf
  | num a, ninf => if a = 0 then nan else if 0 < a then ninf else inf
  | inf, num b => if b = 0 then nan else if 0 < b then inf else ninf
  | ninf, num b => if b = 0 then nan else if 0 < b then ninf else inf
  | inf, inf => inf
  | ninf, ninf => inf
  | inf, ninf => ninf
  | ninf, inf => ninf

/-- JavaScript division (negative zero is not modelled: `a / 0` with
`a > 0` is `+Infinity`, with `a < 0` is `-Infinity`, and `0 / 0` is `NaN`). -/
def div : JSNum → JSNum → JSNum
  | nan, _ => nan
  | _, nan => nan
  | num a, num b =>
      if b = 0 then (if a = 0 then nan else if 0 < a then inf else ninf)
      else num (a / b)
  | num _, inf => num 0
  | num _, ninf => num 0
  | inf, num b => if 0 ≤ b then inf else ninf
  | ninf, num b => if 0 ≤ b then ninf else inf
  | inf, inf => nan
  | inf, ninf => nan
  | ninf, inf => nan
  | ninf, ninf => nan

/-- JavaScript `<` (any comparison with `NaN` is false). -/
def lt : JSNum → JSNum → Bool
  | nan, _ => false
  | _, nan => false
  | num a, num b => decide (a < b)
  | num _, inf => true
  | num _, ninf => false
  | inf, _ => false
  | ninf, ninf => false
  | ninf, _ => true

/-- JavaScript `<=` (any comparison with `NaN` is false). -/
def le : JSNum → JSNum → Bool
  | nan, _ => false
  | _, nan => false
  | num a, num b => decide (a ≤ b)
  | num _, inf => true
  | num _, ninf => false
  | inf, inf => true
  | inf, _ => false
  | ninf, _ => true

/-- JavaScript `Math.min` (returns `NaN` if either argument is `NaN`). -/
def jsMin : JSNum → JSNum → JSNum
  | nan, _ => nan
  | _, nan => nan
  | num a, num b => num (min a b)
  | num a, inf => num a
  | num _, ninf => ninf
  | inf, b => b
  | ninf, _ => ninf

/-- JavaScript `Math.max` (returns `NaN` if either argument is `NaN`). -/
def jsMax : JSNum → JSNum → JSNum
  | nan, _ => nan
  | _, nan => nan
  | num a, num b => num (max a b)
  | num a, ninf => num a
  | num _, inf => inf
  | ninf, b => b
  | inf, _ => inf

/-- JavaScript `x || 0`: `NaN` and `0` are falsy and give `0`. -/
def orZero : JSNum → JSNum
  | nan => num 0
  | num a => if a = 0 then num 0 else num a
  | x => x

instance : Add JSNum := ⟨add⟩
instance : Sub JSNum := ⟨sub⟩
instance : Mul JSNum := ⟨mul⟩
instance : Div JSNum := ⟨div⟩
instance : Neg JSNum := ⟨neg⟩

/-- The mathematical order used to state the spec's inequalities over
simulation quantities (`NaN` is comparable to nothing). -/
def sle : JSNum → JSNum → Prop
  | num a, num b => a ≤ b
  | ninf, num _ => True
  | ninf, inf => True
  | ninf, ninf => True
  | num _, inf => True
  | inf, inf => True
  | _, _ => False

instance : ∀ a b : JSNum, Decidable (sle a b) := by
  intro a b
  cases a <;> cases b <;> simp [sle] <;> infer_instance

end JSNum

/-! ## Data model (from `simulation.js` and `config.js`) -/

/-- The two mechanism variants (`modelVersion` strings `'v1'` / `'v2'`). -/
inductive Model where
  | v1 : Model
  | v2 : Model
deriving DecidableEq, Repr

/-- The control panel passed to `initialize`.  Each field models
`parseFloat(controls.<key>.value)` (already parsed; `parseFloat` of garbage
is `NaN`, hence any `JSNum` is possible).  A `none` field models a missing
DOM element: accessing `.value` of `undefined` throws. -/
structure Controls where
  woofiSwapVolume : Option JSNum
  woofiPerpVolume : Option JSNum
  wooxVolume : Option JSNum
  autoCompoundRate : Option JSNum
  buybackBurnShare : Option JSNum
  stakerShare : Option JSNum
  treasuryShare : Option JSNum
  wooxStakerBps : Option JSNum
  affiliateCut : Option JSNum
  woofiTradingFeeRate : Option JSNum
  supplyElasticity : Option JSNum
  buyingPressureElasticity : Option JSNum
  buyingPressureDecay : Option JSNum
  simulationDuration : Option ℕ
  circulatingSupply : Option JSNum
  initialStaked : Option JSNum
  initialWoofiTreasury : Option JSNum
  initialWooxTreasury : Option JSNum
deriving DecidableEq, Repr

/-- `this.simParams` after `initialize`.  Fields that the active variant's
branch does not create in the JS object (reading them yields `undefined`)
are stored as `JSNum.nan`; they are never read by that variant and
`undefined` behaves like `NaN` in every arithmetic context that occurs. -/
structure Params where
  monthly_woofi_swap_volume : JSNum
  monthly_woofi_perp_volume : JSNum
  monthly_woox_volume : JSNum
  woofi_staker_share : JSNum
  auto_compound_adoption_rate : JSNum
  buyback_burn_share : JSNum
  staker_share : JSNum
  treasury_share : JSNum
  woox_staker_bps : JSNum
  affiliate_share : JSNum
  woofi_fee_rate : JSNum
  supply_elasticity : JSNum
  buying_pressure_elasticity : JSNum
  buying_pressure_decay : JSNum
  simulation_months : ℕ
  initial_circulating_supply : JSNum
  woox_total_fee_rate : JSNum
deriving DecidableEq, Repr

/-- The per-month history arrays read by the annual-ratio block of
`recordHistory` (the remaining history arrays of the source are pure
appends never read back by the engine and are not tracked). -/
structure HistoryBuf where
  months : List ℕ
  usdc_distributed : List JSNum
  buyback_amounts : List JSNum
  auto_compound_amounts : List JSNum
  monthlyBurned : List JSNum
deriving DecidableEq, Repr

/-- `this.simState`: the mutable simulation state.  The annual-ratio arrays
store `some q` for a finite stored ratio and `none` for the `null` /
`undefined` marker written by `isFinite(r) ? r : null`. -/
structure SimState where
  month : ℕ
  woo_price : JSNum
  max_supply : JSNum
  total_supply : JSNum
  circulating_supply : JSNum
  total_staked_woo : JSNum
  woofi_treasury_balance : JSNum
  woox_treasury_balance : JSNum
  cumulative_tokens_burned : JSNum
  temporary_price_impact : JSNum
  history : HistoryBuf
  annual_pr_ratios : List (Option ℚ)
  annual_pv_ratios_usd : List (Option ℚ)
  annual_pv_ratios_market : List (Option ℚ)
deriving DecidableEq, Repr

/-! ### CONFIG constants (`config.js`) -/

def CONFIG_woo_price : ℚ := 65 / 1000
def CONFIG_max_supply : ℚ := 3000000000
def CONFIG_total_supply : ℚ := 2209243570
def CONFIG_woox_total_fee_rate : ℚ := 1 / 10000
def CONFIG_woofi_staker_share : ℚ := 8 / 10
def CONFIG_woox_staker_bps_reward : ℚ := 1 / 100000


/-- The variant-specific parameter fields selected by `initialize`. -/
structure VariantFields where
  auto_compound_adoption_rate : JSNum
  buyback_burn_share : JSNum
  staker_share : JSNum
  treasury_share : JSNum
  woox_staker_bps : JSNum
deriving DecidableEq, Repr

/-- The variant-dependent spread inside `initialize`'s `simParams` object
literal (fields the branch does not create are `nan`, see `Params`). -/
def variantFields (controls : Controls) (model : Model) : Option VariantFields :=
  match model with
  | Model.v1 =>
      match controls.autoCompoundRate with
      | none => none
      | some ac =>
          some { auto_compound_adoption_rate := ac / JSNum.num 100
                 buyback_burn_share := JSNum.nan
                 staker_share := JSNum.nan
                 treasury_share := JSNum.nan
                 woox_staker_bps := JSNum.num CONFIG_woox_staker_bps_reward }
  | Model.v2 =>
      match controls.buybackBurnShare, controls.stakerShare,
            controls.treasuryShare, controls.wooxStakerBps with
      | some bb, some st, some tr, some wx =>
          some { auto_compound_adoption_rate := JSNum.nan
                 buyback_burn_share := bb / JSNum.num 100
                 staker_share := st / JSNum.num 100
                 treasury_share := tr / JSNum.num 100
                 woox_staker_bps := wx / JSNum.num 10000 }
      | _, _, _, _ => none

/-- Builds `this.simParams` from successfully read control values. -/
def mkParams (swapV perpV wooxV : JSNum) (vf : VariantFields)
    (aff feeRate sEl bpEl bpDecay : JSNum) (dur : ℕ) (circ : JSNum) : Params :=
  { monthly_woofi_swap_volume := swapV * JSNum.num 1000000 * JSNum.num 30
    monthly_woofi_perp_volume := perpV * JSNum.num 1000000 * JSNum.num 30
    monthly_woox_volume := wooxV * JSNum.num 1000000 * JSNum.num 30
    woofi_staker_share := JSNum.num CONFIG_woofi_staker_share
    auto_compound_adoption_rate := vf.auto_compound_adoption_rate
    buyback_burn_share := vf.buyback_burn_share
    staker_share := vf.staker_share
    treasury_share := vf.treasury_share
    woox_staker_bps := vf.woox_staker_bps
    affiliate_share := aff / JSNum.num 100
    woofi_fee_rate := feeRate / JSNum.num 100 / JSNum.num 100
    supply_elasticity := sEl
    buying_pressure_elasticity := bpEl
    buying_pressure_decay := bpDecay / JSNum.num 100
    simulation_months := dur
    initial_circulating_supply := circ * JSNum.num 1000000
    woox_total_fee_rate := JSNum.num CONFIG_woox_total_fee_rate }

/-- Builds the freshly reset `this.simState` (`CONFIG.INITIAL_STATE` with
the four user-configurable initial balances overridden). -/
def mkInitState (params : Params) (staked woofiT wooxT : JSNum) : SimState :=
  { month := 0
    woo_price := JSNum.num CONFIG_woo_price
    max_supply := JSNum.num CONFIG_max_supply
    total_supply := JSNum.num CONFIG_total_supply
    circulating_supply := params.initial_circulating_supply
    total_staked_woo := staked * JSNum.num 1000000
    woofi_treasury_balance := woofiT * JSNum.num 1000000
    woox_treasury_balance := wooxT * JSNum.num 1000000
    cumulative_tokens_burned := JSNum.num 0
    temporary_price_impact := JSNum.num 0
    history :=
      { months := []
        usdc_distributed := []
        buyback_amounts := []
        auto_compound_amounts := []
        monthlyBurned := [] }
    annual_pr_ratios := []
    annual_pv_ratios_usd := []
    annual_pv_ratios_market := [] }


/-- `initialize(controls, modelVersion)` of the source (the name is a Lean
keyword, hence `initSim` here).  Returns `none` when the JS code throws (a
control element read by the active variant is missing); otherwise returns
the parameter set and the freshly reset state.  No validation of numeric
values is performed by the source. -/
def initSim (controls : Controls) (model : Model) :
    Option (Params × SimState) :=
  match controls.woofiSwapVolume, controls.woofiPerpVolume,
      controls.wooxVolume, variantFields controls model,
      controls.affiliateCut, controls.woofiTradingFeeRate,
      controls.supplyElasticity, controls.buyingPressureElasticity,
      controls.buyingPressureDecay, controls.simulationDuration,
      controls.circulatingSupply, controls.initialStaked,
      controls.initialWoofiTreasury, controls.initialWooxTreasury with
  | some swapV, some perpV, some wooxV, some vf, some aff, some feeRate,
    some sEl, some bpEl, some bpDecay, some dur, some circ, some staked,
    some woofiT, some wooxT =>
      let params := mkParams swapV perpV wooxV vf aff feeRate sEl bpEl bpDecay dur circ
      some (params, mkInitState params staked woofiT wooxT)
  | _, _, _, _, _, _, _, _, _, _, _, _, _, _ => none

/-! ## Block 1: fee generation and distribution -/

/-- Return value of `calculateFees()`. -/
structure FeeData where
  gross_woofi_swap_fees : JSNum
  gross_woofi_perp_fees : JSNum
  total_gross_woofi_fees : JSNum
  woox_staker_rewards : JSNum
  total_woox_fees : JSNum
  woox_treasury_inflow : JSNum
deriving DecidableEq, Repr

/-- `calculateFees()`: gross fees from trading volumes. -/
def calculateFees (p : Params) : FeeData :=
  let gross_woofi_swap_fees := p.monthly_woofi_swap_volume * p.woofi_fee_rate
  let gross_woofi_perp_fees := p.monthly_woofi_perp_volume * p.woofi_fee_rate
  let total_gross_woofi_fees := gross_woofi_swap_fees + gross_woofi_perp_fees
  let total_woox_fees := p.monthly_woox_volume * p.woox_total_fee_rate
  let woox_staker_rewards := p.monthly_woox_volume * p.woox_staker_bps
  let woox_treasury_inflow := total_woox_fees - woox_staker_rewards
  { gross_woofi_swap_fees := gross_woofi_swap_fees
    gross_woofi_perp_fees := gross_woofi_perp_fees
    total_gross_woofi_fees := total_gross_woofi_fees
    woox_staker_rewards := woox_staker_rewards
    total_woox_fees := total_woox_fees
    woox_treasury_inflow := woox_treasury_inflow }

/-- Return value of `distributeFeesV1` / `distributeFeesV2`. -/
structure DistributionData where
  buyback_burn_amount : JSNum
  affiliate_cut : JSNum
  woofi_staker_rewards : JSNum
  woofi_treasury_inflow_usd : JSNum
  woox_treasury_inflow_usd : JSNum
  total_staker_rewards_usd : JSNum
  total_affiliate_cut : JSNum
  staker_fees_total : JSNum
  treasury_fees_total : JSNum
  orderly_fees_total : JSNum
  buyback_fees_total : JSNum
deriving DecidableEq, Repr

/-- `distributeFeesV1(feeData)`: fixed staker/treasury split. -/
def distributeFeesV1 (p : Params) (feeData : FeeData) : DistributionData :=
  let gross_swap_fees := feeData.gross_woofi_swap_fees
  let gross_perp_fees := feeData.gross_woofi_perp_fees
  let net_swap_fees := gross_swap_fees
  let swap_staker_rewards := net_swap_fees * p.woofi_staker_share
  let swap_treasury_inflow := net_swap_fees * (JSNum.num 1 - p.woofi_staker_share)
  let perp_affiliate_cut := gross_perp_fees * p.affiliate_share
  let net_perp_fees := gross_perp_fees - perp_affiliate_cut
  let perp_staker_rewards := net_perp_fees * p.woofi_staker_share
  let perp_treasury_inflow := net_perp_fees * (JSNum.num 1 - p.woofi_staker_share)
  let total_woofi_staker_rewards := swap_staker_rewards + perp_staker_rewards
  let total_woofi_treasury_inflow := swap_treasury_inflow + perp_treasury_inflow
  let total_affiliate_cut := perp_affiliate_cut
  let total_staker_rewards_usd := total_woofi_staker_rewards + feeData.woox_staker_rewards
  { buyback_burn_amount := JSNum.num 0
    affiliate_cut := total_affiliate_cut
    woofi_staker_rewards := total_woofi_staker_rewards
    woofi_treasury_inflow_usd := total_woofi_treasury_inflow
    woox_treasury_inflow_usd := feeData.woox_treasury_inflow
    total_staker_rewards_usd := total_staker_rewards_usd
    total_affiliate_cut := total_affiliate_cut
    staker_fees_total := total_woofi_staker_rewards + feeData.woox_staker_rewards
    treasury_fees_total := total_woofi_treasury_inflow + feeData.woox_treasury_inflow
    orderly_fees_total := total_affiliate_cut
    buyback_fees_total := JSNum.num 0 }

/-- `distributeFeesV2(feeData)`: configurable buyback/staker/treasury split. -/
def distributeFeesV2 (p : Params) (feeData : FeeData) : DistributionData :=
  let gross_swap_fees := feeData.gross_woofi_swap_fees
  let gross_perp_fees := feeData.gross_woofi_perp_fees
  let net_swap_fees := gross_swap_fees
  let swap_buyback_amount := net_swap_fees * p.buyback_burn_share
  let swap_staker_rewards := net_swap_fees * p.staker_share
  let swap_treasury_inflow := net_swap_fees * p.treasury_share
  let perp_affiliate_cut := gross_perp_fees * p.affiliate_share
  let net_perp_fees := gross_perp_fees - perp_affiliate_cut
  let perp_buyback_amount := net_perp_fees * p.buyback_burn_share
  let perp_staker_rewards := net_perp_fees * p.staker_share
  let perp_treasury_inflow := net_perp_fees * p.treasury_share
  let total_buyback_burn_amount := swap_buyback_amount + perp_buyback_amount
  let total_woofi_staker_rewards := swap_staker_rewards + perp_staker_rewards
  let total_woofi_treasury_inflow := swap_treasury_inflow + perp_treasury_inflow
  let total_affiliate_cut := perp_affiliate_cut
  let total_staker_rewards_usd := total_woofi_staker_rewards + feeData.woox_staker_rewards
  { buyback_burn_amount := total_buyback_burn_amount
    affiliate_cut := total_affiliate_cut
    woofi_staker_rewards := total_woofi_staker_rewards
    woofi_treasury_inflow_usd := total_woofi_treasury_inflow
    woox_treasury_inflow_usd := feeData.woox_treasury_inflow
    total_staker_rewards_usd := total_staker_rewards_usd
    total_affiliate_cut := total_affiliate_cut
    staker_fees_total := total_woofi_staker_rewards + feeData.woox_staker_rewards
    treasury_fees_total := total_woofi_treasury_inflow + feeData.woox_treasury_inflow
    orderly_fees_total := total_affiliate_cut
    buyback_fees_total := total_buyback_burn_amount }

/-- `distributeFees(feeData)`: variant dispatch. -/
def distributeFees (model : Model) (p : Params) (feeData : FeeData) :
    DistributionData :=
  match model with
  | Model.v1 => distributeFeesV1 p feeData
  | Model.v2 => distributeFeesV2 p feeData

/-! ## Block 2: buyback/burn and price impact -/

/-- Return value of the burn-calculation stage.  The V2 code path never
creates the object keys `auto_compound_usd` / `usdc_distribution`; reading
them yields `undefined`, modelled as `nan` (see `Params`). -/
structure BurnData where
  buyback_usd : JSNum
  auto_compound_usd : JSNum
  usdc_distribution : JSNum
  market_purchase_tokens : JSNum
  tokens_burned : JSNum
  usdc_to_stakers : JSNum
  woofi_tokens_burned : JSNum
  woox_tokens_burned : JSNum
deriving DecidableEq, Repr

/-- `calculateAutoCompoundAndBurn(distributionData)` (V1): auto-compound
purchases matched by a treasury burn capped at the treasury balance. -/
def calculateAutoCompoundAndBurn (p : Params) (s : SimState)
    (distributionData : DistributionData) : BurnData :=
  let total_staker_rewards := distributionData.total_staker_rewards_usd
  if JSNum.lt total_staker_rewards (JSNum.num 0) || !total_staker_rewards.isFinite then
    { buyback_usd := JSNum.num 0, auto_compound_usd := JSNum.num 0
      usdc_distribution := JSNum.num 0, market_purchase_tokens := JSNum.num 0
      tokens_burned := JSNum.num 0, usdc_to_stakers := JSNum.num 0
      woofi_tokens_burned := JSNum.num 0, woox_tokens_burned := JSNum.num 0 }
  else if JSNum.le s.woo_price (JSNum.num 0) || !s.woo_price.isFinite then
    { buyback_usd := JSNum.num 0, auto_compound_usd := JSNum.num 0
      usdc_distribution := JSNum.num 0, market_purchase_tokens := JSNum.num 0
      tokens_burned := JSNum.num 0, usdc_to_stakers := JSNum.num 0
      woofi_tokens_burned := JSNum.num 0, woox_tokens_burned := JSNum.num 0 }
  else
    let auto_compound_usd := total_staker_rewards * p.auto_compound_adoption_rate
    let usdc_distribution := total_staker_rewards - auto_compound_usd
    let market_purchase_tokens :=
      if JSNum.lt (JSNum.num 0) auto_compound_usd then auto_compound_usd / s.woo_price
      else JSNum.num 0
    let woofi_tokens_burned :=
      JSNum.jsMin market_purchase_tokens s.woofi_treasury_balance
    let woox_tokens_burned := JSNum.num 0
    let tokens_burned := woofi_tokens_burned + woox_tokens_burned
    { buyback_usd := JSNum.num 0
      auto_compound_usd := auto_compound_usd
      usdc_distribution := usdc_distribution
      market_purchase_tokens := market_purchase_tokens
      tokens_burned := tokens_burned
      usdc_to_stakers := usdc_distribution
      woofi_tokens_burned := woofi_tokens_burned
      woox_tokens_burned := woox_tokens_burned }

/-- `calculateBuybackAndBurnV2(distributionData)` (V2): protocol buyback,
all purchased tokens burned 1:1. -/
def calculateBuybackAndBurnV2 (s : SimState)
    (distributionData : DistributionData) : BurnData :=
  let buyback_usd := distributionData.buyback_burn_amount
  let usdc_to_stakers := distributionData.total_staker_rewards_usd
  if JSNum.lt buyback_usd (JSNum.num 0) || !buyback_usd.isFinite then
    { buyback_usd := JSNum.num 0, auto_compound_usd := JSNum.nan
      usdc_distribution := JSNum.nan, market_purchase_tokens := JSNum.num 0
      tokens_burned := JSNum.num 0, usdc_to_stakers := JSNum.num 0
      woofi_tokens_burned := JSNum.num 0, woox_tokens_burned := JSNum.num 0 }
  else if JSNum.le s.woo_price (JSNum.num 0) || !s.woo_price.isFinite then
    { buyback_usd := JSNum.num 0, auto_compound_usd := JSNum.nan
      usdc_distribution := JSNum.nan, market_purchase_tokens := JSNum.num 0
      tokens_burned := JSNum.num 0, usdc_to_stakers := JSNum.num 0
      woofi_tokens_burned := JSNum.num 0, woox_tokens_burned := JSNum.num 0 }
  else
    let market_purchase_tokens := buyback_usd / s.woo_price
    let tokens_burned := market_purchase_tokens
    { buyback_usd := buyback_usd
      auto_compound_usd := JSNum.nan
      usdc_distribution := JSNum.nan
      market_purchase_tokens := market_purchase_tokens
      tokens_burned := tokens_burned
      usdc_to_stakers := usdc_to_stakers
      woofi_tokens_burned := JSNum.num 0
      woox_tokens_burned := JSNum.num 0 }

/-- `calculateBuybackAndBurn(distributionData)`: variant dispatch. -/
def calculateBuybackAndBurn (model : Model) (p : Params) (s : SimState)
    (distributionData : DistributionData) : BurnData :=
  match model with
  | Model.v1 => calculateAutoCompoundAndBurn p s distributionData
  | Model.v2 => calculateBuybackAndBurnV2 s distributionData

/-- Return value of `calculatePriceImpact(burnData)`. -/
structure PriceImpactData where
  permanent_impact : JSNum
  new_temporary_impact : JSNum
  total_temporary_impact : JSNum
deriving DecidableEq, Repr

/-- `calculatePriceImpact(burnData)`: permanent impact from supply
reduction and geometrically decaying temporary impact from buying
pressure (the source's `buy_pressure_ratio` local is `buy_pressure_q`). -/
def calculatePriceImpact (p : Params) (model : Model) (s : SimState)
    (burnData : BurnData) : PriceImpactData :=
  let supply_reduction_pct :=
    if JSNum.lt (JSNum.num 0) s.circulating_supply then
      burnData.tokens_burned / s.circulating_supply
    else JSNum.num 0
  let permanent_impact := supply_reduction_pct * p.supply_elasticity
  let market_depth_proxy :=
    (p.monthly_woofi_swap_volume + p.monthly_woox_volume) / JSNum.num 30
  let buying_pressure_usd :=
    match model with
    | Model.v1 => burnData.auto_compound_usd
    | Model.v2 => burnData.buyback_usd
  let buy_pressure_q :=
    if JSNum.lt (JSNum.num 0) market_depth_proxy then
      buying_pressure_usd / market_depth_proxy
    else JSNum.num 0
  let new_temporary_impact := buy_pressure_q * p.buying_pressure_elasticity
  let decayed_impact :=
    s.temporary_price_impact * (JSNum.num 1 - p.buying_pressure_decay)
  let total_temporary_impact := decayed_impact + new_temporary_impact
  { permanent_impact := permanent_impact
    new_temporary_impact := new_temporary_impact
    total_temporary_impact := total_temporary_impact }

/-! ## Block 3: state updates -/

/-- `updateTreasuryV1`: inflows and burn depletion, then both balances
clamped via `Math.max(0, ·)`. -/
def updateTreasuryV1 (s : SimState) (distributionData : DistributionData)
    (burnData : BurnData) : SimState :=
  let woofi_inflow_tokens :=
    if JSNum.lt (JSNum.num 0) s.woo_price then
      distributionData.woofi_treasury_inflow_usd / s.woo_price
    else JSNum.num 0
  let woox_inflow_tokens :=
    if JSNum.lt (JSNum.num 0) s.woo_price then
      distributionData.woox_treasury_inflow_usd / s.woo_price
    else JSNum.num 0
  let woofi1 := s.woofi_treasury_balance +
    (woofi_inflow_tokens - burnData.woofi_tokens_burned)
  let woox1 := s.woox_treasury_balance +
    (woox_inflow_tokens - burnData.woox_tokens_burned)
  { s with
    woofi_treasury_balance := JSNum.jsMax (JSNum.num 0) woofi1
    woox_treasury_balance := JSNum.jsMax (JSNum.num 0) woox1 }

/-- `updateTreasuryV2`: accumulation only, no burns and no clamp. -/
def updateTreasuryV2 (s : SimState) (distributionData : DistributionData) :
    SimState :=
  let woofi_inflow_tokens :=
    if JSNum.lt (JSNum.num 0) s.woo_price then
      distributionData.woofi_treasury_inflow_usd / s.woo_price
    else JSNum.num 0
  let woox_inflow_tokens :=
    if JSNum.lt (JSNum.num 0) s.woo_price then
      distributionData.woox_treasury_inflow_usd / s.woo_price
    else JSNum.num 0
  { s with
    woofi_treasury_balance := s.woofi_treasury_balance + woofi_inflow_tokens
    woox_treasury_balance := s.woox_treasury_balance + woox_inflow_tokens }

/-- `updateTreasury`: variant dispatch. -/
def updateTreasury (model : Model) (s : SimState)
    (distributionData : DistributionData) (burnData : BurnData) : SimState :=
  match model with
  | Model.v1 => updateTreasuryV1 s distributionData burnData
  | Model.v2 => updateTreasuryV2 s distributionData

/-- `updateStakerPositionsV1`: auto-compound purchases add to the staked
balance. -/
def updateStakerPositionsV1 (s : SimState) (burnData : BurnData) : SimState :=
  if JSNum.lt (JSNum.num 0) burnData.market_purchase_tokens then
    { s with total_staked_woo :=
        s.total_staked_woo + burnData.market_purchase_tokens }
  else s

/-- `updateStakerPositionsV2`: no staking changes (rewards are USDC). -/
def updateStakerPositionsV2 (s : SimState) : SimState := s

/-- `updateStakerPositions`: variant dispatch. -/
def updateStakerPositions (model : Model) (s : SimState)
    (burnData : BurnData) : SimState :=
  match model with
  | Model.v1 => updateStakerPositionsV1 s burnData
  | Model.v2 => updateStakerPositionsV2 s

/-- `updateSupply(burnData)`: decrements `total_supply` and
`circulating_supply` and accumulates `cumulative_tokens_burned`; invalid
burn data (negative or non-finite) is logged and skipped.  A negative
resulting supply is only logged — no clamp is applied. -/
def updateSupply (s : SimState) (burnData : BurnData) : SimState :=
  if JSNum.lt burnData.tokens_burned (JSNum.num 0) ||
      !burnData.tokens_burned.isFinite ||
      JSNum.lt burnData.market_purchase_tokens (JSNum.num 0) ||
      !burnData.market_purchase_tokens.isFinite then
    s
  else
    { s with
      total_supply := s.total_supply - burnData.tokens_burned
      circulating_supply := s.circulating_supply - burnData.market_purchase_tokens
      cumulative_tokens_burned :=
        s.cumulative_tokens_burned + burnData.tokens_burned }

/-- `updatePrice(priceImpactData)`: multiply by
`1 + permanent + total_temporary`, clamp into `[0.0001, 1000]`; a
non-finite or non-positive multiplier skips the whole update (price and
carried temporary impact both hold their previous values). -/
def updatePrice (s : SimState) (priceImpactData : PriceImpactData) : SimState :=
  let price_change_multiplier := JSNum.num 1 +
    priceImpactData.permanent_impact + priceImpactData.total_temporary_impact
  if price_change_multiplier.isNaN || !price_change_multiplier.isFinite ||
      JSNum.le price_change_multiplier (JSNum.num 0) then
    s
  else
    let raised := s.woo_price * price_change_multiplier
    { s with
      woo_price := JSNum.jsMax (JSNum.num (1 / 10000)) (JSNum.jsMin (JSNum.num 1000) raised)
      temporary_price_impact := priceImpactData.total_temporary_impact }

/-! ## History recording and annual ratios -/

/-- `isFinite(r) ? r : null`: the stored form of an annual ratio (`none`
is the `null` marker). -/
def toFiniteOpt : JSNum → Option ℚ
  | JSNum.num q => some q
  | _ => none

/-- JavaScript `arr[i] = v` on an array of length `≤ i`: intermediate
slots are filled with `undefined` (modelled as `none`, like `null`). -/
def setAt (l : List (Option ℚ)) (i : ℕ) (v : Option ℚ) : List (Option ℚ) :=
  if i < l.length then l.set i v
  else l ++ List.replicate (i - l.length) none ++ [v]

/-- The `for (let i = startIndex; i < endIndex; i++)` accumulation of the
annual-ratio block: `acc += (arr[i] || 0) * 1e6` over the trailing
window. -/
def annualSum (l : List JSNum) (start : ℕ) : JSNum :=
  ((l.drop start).map fun x => x.orZero * JSNum.num 1000000).foldl
    JSNum.add (JSNum.num 0)

/-- The history buffer after this month's pushes (`recordHistory` lines
up to the annual-ratio block; only the arrays read back by that block are
tracked — the remaining pushes of the source are appends to write-only
arrays). -/
def pushedHistory (model : Model) (burnData : BurnData) (s : SimState) :
    HistoryBuf :=
  { months := s.history.months ++ [s.month + 1]
    usdc_distributed := s.history.usdc_distributed ++
      [burnData.usdc_to_stakers / JSNum.num 1000000]
    buyback_amounts := s.history.buyback_amounts ++
      [match model with
       | Model.v1 => JSNum.num 0
       | Model.v2 => burnData.buyback_usd / JSNum.num 1000000]
    auto_compound_amounts := s.history.auto_compound_amounts ++
      [match model with
       | Model.v1 => burnData.auto_compound_usd / JSNum.num 1000000
       | Model.v2 => JSNum.num 0]
    monthlyBurned := s.history.monthlyBurned ++
      [burnData.tokens_burned / JSNum.num 1000000] }

/-- `startIndex = Math.max(0, months.length - 12)` (truncated subtraction
is exactly the `Math.max(0, ·)`). -/
def annualWindowStart (h : HistoryBuf) : ℕ := h.months.length - 12

/-- `annualUSDC` of the annual-ratio block. -/
def annualUSDC (h : HistoryBuf) : JSNum :=
  annualSum h.usdc_distributed (annualWindowStart h)

/-- `annualBuybackUSD` of the annual-ratio block. -/
def annualBuybackUSD (h : HistoryBuf) : JSNum :=
  annualSum h.buyback_amounts (annualWindowStart h)

/-- `annualAutoCompoundUSD` of the annual-ratio block. -/
def annualAutoCompoundUSD (h : HistoryBuf) : JSNum :=
  annualSum h.auto_compound_amounts (annualWindowStart h)

/-- `annualTokensBurned` of the annual-ratio block. -/
def annualTokensBurned (h : HistoryBuf) : JSNum :=
  annualSum h.monthlyBurned (annualWindowStart h)

/-- `marketCap = circulating_supply * woo_price` at the snapshot month. -/
def marketCap (s : SimState) : JSNum := s.circulating_supply * s.woo_price

/-- V1 `totalAnnualValue = annualUSDC + annualBurnValue +
annualAutoCompoundUSD` (with `annualBurnValue = annualTokensBurned *
woo_price`). -/
def prDenominator (h : HistoryBuf) (s : SimState) : JSNum :=
  annualUSDC h + annualTokensBurned h * s.woo_price + annualAutoCompoundUSD h

/-- V1 stored ratio: `totalAnnualValue > 0 ? marketCap / totalAnnualValue
: Infinity`, then `isFinite(r) ? r : null`. -/
def prStored (h : HistoryBuf) (s : SimState) : Option ℚ :=
  toFiniteOpt
    (if JSNum.lt (JSNum.num 0) (prDenominator h s) then
      marketCap s / prDenominator h s
    else JSNum.inf)

/-- V2 `totalAnnualValueUSD = annualUSDC + annualBuybackUSD`. -/
def pvUsdDenominator (h : HistoryBuf) : JSNum := annualUSDC h + annualBuybackUSD h

/-- V2 stored cash-flow ratio (`Infinity` replaced by `null` on store). -/
def pvUsdStored (h : HistoryBuf) (s : SimState) : Option ℚ :=
  toFiniteOpt
    (if JSNum.lt (JSNum.num 0) (pvUsdDenominator h) then
      marketCap s / pvUsdDenominator h
    else JSNum.inf)

/-- V2 `totalAnnualValueMarket = annualUSDC + annualBurnValue`. -/
def pvMarketDenominator (h : HistoryBuf) (s : SimState) : JSNum :=
  annualUSDC h + annualTokensBurned h * s.woo_price

/-- V2 stored market-value ratio (`Infinity` replaced by `null` on
store). -/
def pvMarketStored (h : HistoryBuf) (s : SimState) : Option ℚ :=
  toFiniteOpt
    (if JSNum.lt (JSNum.num 0) (pvMarketDenominator h s) then
      marketCap s / pvMarketDenominator h s
    else JSNum.inf)

/-- `recordHistory(burnData, distributionData, feeData)`: appends this
month's records and, when `(month + 1) % 12 === 0`, computes the annual
ratios from the trailing 12-month window and stores them at index
`yearNumber - 1`. -/
def recordHistory (model : Model) (burnData : BurnData) (s : SimState) :
    SimState :=
  let h2 := pushedHistory model burnData s
  let s1 := { s with history := h2 }
  if (s.month + 1) % 12 = 0 then
    let yearNumber := (s.month + 1) / 12
    match model with
    | Model.v1 =>
        let stored := setAt s1.annual_pr_ratios (yearNumber - 1) (prStored h2 s)
        { s1 with annual_pr_ratios := stored }
    | Model.v2 =>
        let storedUsd :=
          setAt s1.annual_pv_ratios_usd (yearNumber - 1) (pvUsdStored h2 s)
        let storedMarket :=
          setAt s1.annual_pv_ratios_market (yearNumber - 1) (pvMarketStored h2 s)
        { s1 with
          annual_pv_ratios_usd := storedUsd
          annual_pv_ratios_market := storedMarket }
  else s1

/-! ## Orchestrator -/

/-- `simulationStep()` with the source's `try/catch` made explicit.  All
pipeline arithmetic is total; the only reachable `throw` site is the
re-throw inside `recordHistory`'s own `catch` (e.g. a history array made
unavailable by an external mutation), abstracted by the `recordThrows`
flag.  When it throws, the `catch` of `simulationStep` returns `false`
with the Block-3 state mutations already applied and the month counter
not yet incremented. -/
def simulationStepE (p : Params) (model : Model) (recordThrows : Bool)
    (s : SimState) : SimState × Bool :=
  if p.simulation_months ≤ s.month then (s, false)
  else if model = Model.v1 ∧ JSNum.le s.woofi_treasury_balance (JSNum.num 0) = true then
    (s, false)
  else
    let feeData := calculateFees p
    let distributionData := distributeFees model p feeData
    let burnData := calculateBuybackAndBurn model p s distributionData
    let priceImpactData := calculatePriceImpact p model s burnData
    let s1 := updateTreasury model s distributionData burnData
    let s2 := updateStakerPositions model s1 burnData
    let s3 := updateSupply s2 burnData
    let s4 := updatePrice s3 priceImpactData
    if recordThrows then (s4, false)
    else
      let s5 := recordHistory model burnData s4
      ({ s5 with month := s5.month + 1 }, true)

/-- `simulationStep()`: one month; returns the new state and the
continue/stop flag (`false` on completion, depletion or caught error). -/
def simulationStep (p : Params) (model : Model) (s : SimState) :
    SimState × Bool :=
  simulationStepE p model false s

/-- The state after one invocation of `simulationStep`. -/
def runStep (p : Params) (model : Model) (s : SimState) : SimState :=
  (simulationStep p model s).1

/-- The state after `n` invocations of `simulationStep`. -/
def runN (p : Params) (model : Model) : ℕ → SimState → SimState
  | 0, s => s
  | n + 1, s => runN p model n (runStep p model s)

/-- The default control values of `config.js` (`DEFAULT_VALUES`). -/
def defaultControls : Controls :=
  { woofiSwapVolume := some (JSNum.num (494 / 10))
    woofiPerpVolume := some (JSNum.num (113 / 10))
    wooxVolume := some (JSNum.num (3659 / 10))
    autoCompoundRate := some (JSNum.num 70)
    buybackBurnShare := some (JSNum.num 50)
    stakerShare := some (JSNum.num 30)
    treasuryShare := some (JSNum.num 20)
    wooxStakerBps := some (JSNum.num (1 / 10))
    affiliateCut := some (JSNum.num 60)
    woofiTradingFeeRate := some (JSNum.num (8 / 100))
    supplyElasticity := some (JSNum.num 10)
    buyingPressureElasticity := some (JSNum.num (3 / 2))
    buyingPressureDecay := some (JSNum.num 15)
    simulationDuration := some 36
    circulatingSupply := some (JSNum.num (19092 / 10))
    initialStaked := some (JSNum.num (1259 / 2))
    initialWoofiTreasury := some (JSNum.num (418 / 10))
    initialWooxTreasury := some (JSNum.num (325 / 10)) }

/-! ## Concrete demonstration inputs shared by witnesses -/

/-- An empty history buffer. -/
def demoHistory : HistoryBuf :=
  { months := [], usdc_distributed := [], buyback_amounts := []
    auto_compound_amounts := [], monthlyBurned := [] }

/-- A small concrete state used to instantiate theorems. -/
def demoState : SimState :=
  { month := 0
    woo_price := JSNum.num 1
    max_supply := JSNum.num 3000000000
    total_supply := JSNum.num 1000
    circulating_supply := JSNum.num 500
    total_staked_woo := JSNum.num 100
    woofi_treasury_balance := JSNum.num 3
    woox_treasury_balance := JSNum.num 5
    cumulative_tokens_burned := JSNum.num 0
    temporary_price_impact := JSNum.num 0
    history := demoHistory
    annual_pr_ratios := []
    annual_pv_ratios_usd := []
    annual_pv_ratios_market := [] }

/-- A small concrete distribution result used to instantiate theorems. -/
def demoDist : DistributionData :=
  { buyback_burn_amount := JSNum.num 0
    affiliate_cut := JSNum.num 0
    woofi_staker_rewards := JSNum.num 0
    woofi_treasury_inflow_usd := JSNum.num 0
    woox_treasury_inflow_usd := JSNum.num 0
    total_staker_rewards_usd := JSNum.num 10
    total_affiliate_cut := JSNum.num 0
    staker_fees_total := JSNum.num 0
    treasury_fees_total := JSNum.num 0
    orderly_fees_total := JSNum.num 0
    buyback_fees_total := JSNum.num 0 }

/-- Concrete parameters with a `70%` adoption rate under Variant A. -/
def demoParamsV1 : Params :=
  { monthly_woofi_swap_volume := JSNum.num 3000
    monthly_woofi_perp_volume := JSNum.num 600
    monthly_woox_volume := JSNum.num 27000
    woofi_staker_share := JSNum.num CONFIG_woofi_staker_share
    auto_compound_adoption_rate := JSNum.num (7 / 10)
    buyback_burn_share := JSNum.nan
    staker_share := JSNum.nan
    treasury_share := JSNum.nan
    woox_staker_bps := JSNum.num CONFIG_woox_staker_bps_reward
    affiliate_share := JSNum.num (6 / 10)
    woofi_fee_rate := JSNum.num (8 / 1000000)
    supply_elasticity := JSNum.num 10
    buying_pressure_elasticity := JSNum.num (3 / 2)
    buying_pressure_decay := JSNum.num (15 / 100)
    simulation_months := 36
    initial_circulating_supply := JSNum.num 500
    woox_total_fee_rate := JSNum.num CONFIG_woox_total_fee_rate }

/-! ## Computation lemmas for JSNum on finite values -/

theorem JSNum.num_add (a b : ℚ) : JSNum.num a + JSNum.num b = JSNum.num (a + b) := rfl

theorem JSNum.num_sub (a b : ℚ) : JSNum.num a - JSNum.num b = JSNum.num (a - b) := by
  show JSNum.add (JSNum.num a) (JSNum.neg (JSNum.num b)) = _
  simp [JSNum.add, JSNum.neg, sub_eq_add_neg]

theorem JSNum.num_mul (a b : ℚ) : JSNum.num a * JSNum.num b = JSNum.num (a * b) := rfl

theorem JSNum.num_div (a b : ℚ) (h : b ≠ 0) :
    JSNum.num a / JSNum.num b = JSNum.num (a / b) := by
  show JSNum.div _ _ = _
  simp [JSNum.div, h]

theorem JSNum.num_jsMin (a b : ℚ) :
    JSNum.jsMin (JSNum.num a) (JSNum.num b) = JSNum.num (min a b) := rfl

theorem JSNum.num_jsMax (a b : ℚ) :
    JSNum.jsMax (JSNum.num a) (JSNum.num b) = JSNum.num (max a b) := rfl

theorem JSNum.num_lt (a b : ℚ) :
    JSNum.lt (JSNum.num a) (JSNum.num b) = decide (a < b) := rfl

theorem JSNum.num_le (a b : ℚ) :
    JSNum.le (JSNum.num a) (JSNum.num b) = decide (a ≤ b) := rfl

theorem JSNum.num_isFinite (a : ℚ) : (JSNum.num a).isFinite = true := rfl

/-! ## C5: Variant A burn equals min(purchase, primary treasury) -/

/-- C5: under Variant A (`calculateAutoCompoundAndBurn`), with a positive
finite spot price, nonnegative finite staker rewards and a nonnegative
adoption rate (the spec's parameter invariant), the auto-compound USD is
`rewards × adoption`, the market purchase is `auto_compound_usd / price`,
the burned amount is `min(purchase_tokens, woofi_treasury_balance)`, and
only the primary (WOOFi) treasury burns. -/
theorem autoCompound_burn_matches_treasury_cap
    (p : Params) (s : SimState) (d : DistributionData)
    (pr r a tr : ℚ)
    (hp : s.woo_price = JSNum.num pr) (hp0 : 0 < pr)
    (hr : d.total_staker_rewards_usd = JSNum.num r) (hr0 : 0 ≤ r)
    (ha : p.auto_compound_adoption_rate = JSNum.num a) (ha0 : 0 ≤ a)
    (htr : s.woofi_treasury_balance = JSNum.num tr) :
    (calculateAutoCompoundAndBurn p s d).auto_compound_usd = JSNum.num (r * a) ∧
    (calculateAutoCompoundAndBurn p s d).market_purchase_tokens =
      JSNum.num (r * a / pr) ∧
    (calculateAutoCompoundAndBurn p s d).woofi_tokens_burned =
      JSNum.num (min (r * a / pr) tr) ∧
    (calculateAutoCompoundAndBurn p s d).tokens_burned =
      JSNum.num (min (r * a / pr) tr) ∧
    (calculateAutoCompoundAndBurn p s d).woox_tokens_burned = JSNum.num 0 := by
  have hpr0 : pr ≠ 0 := ne_of_gt hp0
  by_cases hpos : 0 < r * a
  · simp [calculateAutoCompoundAndBurn, hp, hr, ha, htr, JSNum.num_lt,
      JSNum.num_le, JSNum.num_isFinite, JSNum.num_mul, JSNum.num_add,
      JSNum.num_jsMin, JSNum.num_div _ _ hpr0, not_lt.mpr hr0,
      not_le.mpr hp0, hpos]
  · have hz : r * a = 0 :=
      le_antisymm (not_lt.mp hpos) (mul_nonneg hr0 ha0)
    simp [calculateAutoCompoundAndBurn, hp, hr, ha, htr, JSNum.num_lt,
      JSNum.num_le, JSNum.num_isFinite, JSNum.num_mul, JSNum.num_add,
      JSNum.num_jsMin, not_lt.mpr hr0, not_le.mpr hp0, hz,
      min_eq_left (le_trans (by norm_num : (0:ℚ) / pr ≤ 0) (le_refl 0))]

/-- Witness for C5: at price `1`, rewards `10`, adoption `0.7` and a
primary treasury of `3` tokens, the burn is `min(7, 3) = 3` and the
secondary treasury burns nothing. -/
theorem autoCompound_burn_matches_treasury_cap_witness :
    (calculateAutoCompoundAndBurn demoParamsV1 demoState demoDist).tokens_burned =
      JSNum.num 3 ∧
    (calculateAutoCompoundAndBurn demoParamsV1 demoState demoDist).woox_tokens_burned =
      JSNum.num 0 := by
  have h := autoCompound_burn_matches_treasury_cap demoParamsV1 demoState demoDist
    1 10 (7 / 10) 3 rfl (by norm_num) rfl (by norm_num) rfl (by norm_num) rfl
  refine ⟨?_, h.2.2.2.2⟩
  rw [h.2.2.2.1]
  norm_num

/-! ## C1: degenerate numerics zero the stage but do not abort the run -/

/-- The default controls with a `NaN` primary swap volume (the result of
`parseFloat` on a non-numeric input). -/
def nanControls : Controls := { defaultControls with woofiSwapVolume := some JSNum.nan }

/-- The run produced by `initialize(nanControls, 'v2')`. -/
def nanRun : Params × SimState := (initSim nanControls Model.v2).get (by decide)

/-- Counterexample to C1: with a `NaN` swap volume the computed buyback
flow is non-finite, the burn stage returns its all-zero result, yet
`simulationStep` returns `true` (continue) for that month instead of the
claimed `false` (abort). -/
theorem step_continues_on_nan_flow_counterexample :
    (initSim nanControls Model.v2).isSome = true ∧
    (distributeFeesV2 nanRun.1 (calculateFees nanRun.1)).buyback_burn_amount.isFinite
      = false ∧
    (calculateBuybackAndBurnV2 nanRun.2
      (distributeFeesV2 nanRun.1 (calculateFees nanRun.1))).tokens_burned
      = JSNum.num 0 ∧
    (simulationStep nanRun.1 Model.v2 nanRun.2).2 = true := by
  refine ⟨by decide, by decide, by decide, by decide⟩

/-- C1 (amended): when the Variant-B buyback guard fires (negative or
non-finite buyback USD, or non-positive or non-finite spot price), the
burn stage returns its all-zero result and the step continues normally —
`simulationStep` returns `true` for that month (it is not fatal). -/
theorem degenerate_stage_zeroes_and_step_continues
    (p : Params) (s : SimState)
    (hm : s.month < p.simulation_months)
    (hguard :
      (JSNum.lt (distributeFeesV2 p (calculateFees p)).buyback_burn_amount
          (JSNum.num 0) ||
        !(distributeFeesV2 p (calculateFees p)).buyback_burn_amount.isFinite) = true ∨
      (JSNum.le s.woo_price (JSNum.num 0) || !s.woo_price.isFinite) = true) :
    (calculateBuybackAndBurnV2 s (distributeFeesV2 p (calculateFees p))).buyback_usd
      = JSNum.num 0 ∧
    (calculateBuybackAndBurnV2 s
        (distributeFeesV2 p (calculateFees p))).market_purchase_tokens
      = JSNum.num 0 ∧
    (calculateBuybackAndBurnV2 s (distributeFeesV2 p (calculateFees p))).tokens_burned
      = JSNum.num 0 ∧
    (simulationStep p Model.v2 s).2 = true := by
  have hstep : (simulationStep p Model.v2 s).2 = true := by
    simp [simulationStep, simulationStepE, not_le.mpr hm]
  refine ⟨?_, ?_, ?_, hstep⟩ <;>
  · by_cases hg1 :
      (JSNum.lt (distributeFeesV2 p (calculateFees p)).buyback_burn_amount
          (JSNum.num 0) ||
        !(distributeFeesV2 p (calculateFees p)).buyback_burn_amount.isFinite) = true
    · simp [calculateBuybackAndBurnV2, hg1]
    · have hg2 : (JSNum.le s.woo_price (JSNum.num 0) || !s.woo_price.isFinite) = true := by
        rcases hguard with h | h
        · exact absurd h hg1
        · exact h
      simp [calculateBuybackAndBurnV2, hg1, hg2]

/-- Witness for the amended C1, at the `NaN`-volume run. -/
theorem degenerate_stage_zeroes_and_step_continues_witness :
    (calculateBuybackAndBurnV2 nanRun.2
        (distributeFeesV2 nanRun.1 (calculateFees nanRun.1))).tokens_burned
      = JSNum.num 0 ∧
    (simulationStep nanRun.1 Model.v2 nanRun.2).2 = true := by
  have h := degenerate_stage_zeroes_and_step_continues nanRun.1 nanRun.2
    (by decide) (Or.inl (by decide))
  exact ⟨h.2.2.1, h.2.2.2⟩

/-! ## C2: initialize performs no value validation -/

/-- The control elements actually read by `initialize` for a variant. -/
def requiredControls (c : Controls) : Model → Bool
  | Model.v1 =>
      c.woofiSwapVolume.isSome && c.woofiPerpVolume.isSome &&
      c.wooxVolume.isSome && c.autoCompoundRate.isSome &&
      c.affiliateCut.isSome && c.woofiTradingFeeRate.isSome &&
      c.supplyElasticity.isSome && c.buyingPressureElasticity.isSome &&
      c.buyingPressureDecay.isSome && c.simulationDuration.isSome &&
      c.circulatingSupply.isSome && c.initialStaked.isSome &&
      c.initialWoofiTreasury.isSome && c.initialWooxTreasury.isSome
  | Model.v2 =>
      c.woofiSwapVolume.isSome && c.woofiPerpVolume.isSome &&
      c.wooxVolume.isSome && c.buybackBurnShare.isSome &&
      c.stakerShare.isSome && c.treasuryShare.isSome &&
      c.wooxStakerBps.isSome && c.affiliateCut.isSome &&
      c.woofiTradingFeeRate.isSome && c.supplyElasticity.isSome &&
      c.buyingPressureElasticity.isSome && c.buyingPressureDecay.isSome &&
      c.simulationDuration.isSome && c.circulatingSupply.isSome &&
      c.initialStaked.isSome && c.initialWoofiTreasury.isSome &&
      c.initialWooxTreasury.isSome

/-- Counterexample to C2: a configuration whose primary swap volume is
non-finite (`NaN`) is accepted — `initialize` succeeds and stores the
non-finite volume, instead of failing with a validation error. -/
theorem initSim_accepts_nonfinite_counterexample :
    (initSim nanControls Model.v2).isSome = true ∧
    nanRun.1.monthly_woofi_swap_volume.isFinite = false := by
  refine ⟨by decide, by decide⟩

/-- C2 (amended): `initialize` performs no validation of numeric values;
it succeeds exactly when every control element read for the chosen
variant is present, whatever the parsed values are (a missing element
makes the JS code throw, which is the only failure mode). -/
theorem initSim_success_iff_controls_present (c : Controls) (model : Model) :
    (initSim c model).isSome = requiredControls c model := by
  obtain ⟨a1, a2, a3, a4, a5, a6, a7, a8, a9, a10, a11, a12, a13, a14, a15,
    a16, a17, a18⟩ := c
  cases model
  · cases a1
    · rfl
    cases a2
    · rfl
    cases a3
    · rfl
    cases a4
    · rfl
    cases a9
    · rfl
    cases a10
    · rfl
    cases a11
    · rfl
    cases a12
    · rfl
    cases a13
    · rfl
    cases a14
    · rfl
    cases a15
    · rfl
    cases a16
    · rfl
    cases a17
    · rfl
    cases a18
    · rfl
    rfl
  · cases a1
    · rfl
    cases a2
    · rfl
    cases a3
    · rfl
    cases a5
    · rfl
    cases a6
    · rfl
    cases a7
    · rfl
    cases a8
    · rfl
    cases a9
    · rfl
    cases a10
    · rfl
    cases a11
    · rfl
    cases a12
    · rfl
    cases a13
    · rfl
    cases a14
    · rfl
    cases a15
    · rfl
    cases a16
    · rfl
    cases a17
    · rfl
    cases a18
    · rfl
    rfl

/-! ## Structure lemmas about the pipeline stages -/

theorem JSNum.isFinite_iff (x : JSNum) :
    x.isFinite = true ↔ ∃ q : ℚ, x = JSNum.num q := by
  cases x <;> simp [JSNum.isFinite]

/-- Fields preserved by the treasury update (both variants): everything
except the two treasury balances. -/
theorem updateTreasury_frame (model : Model) (s : SimState)
    (d : DistributionData) (b : BurnData) :
    (updateTreasury model s d b).month = s.month ∧
    (updateTreasury model s d b).woo_price = s.woo_price ∧
    (updateTreasury model s d b).max_supply = s.max_supply ∧
    (updateTreasury model s d b).total_supply = s.total_supply ∧
    (updateTreasury model s d b).circulating_supply = s.circulating_supply ∧
    (updateTreasury model s d b).total_staked_woo = s.total_staked_woo ∧
    (updateTreasury model s d b).cumulative_tokens_burned =
      s.cumulative_tokens_burned ∧
    (updateTreasury model s d b).temporary_price_impact =
      s.temporary_price_impact := by
  cases model <;>
    simp [updateTreasury, updateTreasuryV1, updateTreasuryV2]

/-- Fields preserved by the staker update (both variants): everything
except the staked balance. -/
theorem updateStakerPositions_frame (model : Model) (s : SimState)
    (b : BurnData) :
    (updateStakerPositions model s b).month = s.month ∧
    (updateStakerPositions model s b).woo_price = s.woo_price ∧
    (updateStakerPositions model s b).max_supply = s.max_supply ∧
    (updateStakerPositions model s b).total_supply = s.total_supply ∧
    (updateStakerPositions model s b).circulating_supply =
      s.circulating_supply ∧
    (updateStakerPositions model s b).woofi_treasury_balance =
      s.woofi_treasury_balance ∧
    (updateStakerPositions model s b).woox_treasury_balance =
      s.woox_treasury_balance ∧
    (updateStakerPositions model s b).cumulative_tokens_burned =
      s.cumulative_tokens_burned ∧
    (updateStakerPositions model s b).temporary_price_impact =
      s.temporary_price_impact := by
  cases model
  · by_cases h : JSNum.lt (JSNum.num 0) b.market_purchase_tokens = true <;>
      simp [updateStakerPositions, updateStakerPositionsV1, h]
  · exact ⟨rfl, rfl, rfl, rfl, rfl, rfl, rfl, rfl, rfl⟩

/-- Fields preserved by the supply update: everything except the two
supplies and the cumulative burn counter. -/
theorem updateSupply_frame (s : SimState) (b : BurnData) :
    (updateSupply s b).month = s.month ∧
    (updateSupply s b).woo_price = s.woo_price ∧
    (updateSupply s b).max_supply = s.max_supply ∧
    (updateSupply s b).total_staked_woo = s.total_staked_woo ∧
    (updateSupply s b).woofi_treasury_balance = s.woofi_treasury_balance ∧
    (updateSupply s b).woox_treasury_balance = s.woox_treasury_balance ∧
    (updateSupply s b).temporary_price_impact = s.temporary_price_impact := by
  unfold updateSupply
  split <;> simp

/-- Fields preserved by the price update: everything except the price and
the carried temporary impact. -/
theorem updatePrice_frame (s : SimState) (pid : PriceImpactData) :
    (updatePrice s pid).month = s.month ∧
    (updatePrice s pid).max_supply = s.max_supply ∧
    (updatePrice s pid).total_supply = s.total_supply ∧
    (updatePrice s pid).circulating_supply = s.circulating_supply ∧
    (updatePrice s pid).total_staked_woo = s.total_staked_woo ∧
    (updatePrice s pid).woofi_treasury_balance = s.woofi_treasury_balance ∧
    (updatePrice s pid).woox_treasury_balance = s.woox_treasury_balance ∧
    (updatePrice s pid).cumulative_tokens_burned =
      s.cumulative_tokens_burned := by
  simp only [updatePrice]
  split <;> simp

/-- Fields preserved by history recording: every scalar state variable. -/
theorem recordHistory_frame (model : Model) (b : BurnData) (s : SimState) :
    (recordHistory model b s).month = s.month ∧
    (recordHistory model b s).woo_price = s.woo_price ∧
    (recordHistory model b s).max_supply = s.max_supply ∧
    (recordHistory model b s).total_supply = s.total_supply ∧
    (recordHistory model b s).circulating_supply = s.circulating_supply ∧
    (recordHistory model b s).total_staked_woo = s.total_staked_woo ∧
    (recordHistory model b s).woofi_treasury_balance =
      s.woofi_treasury_balance ∧
    (recordHistory model b s).woox_treasury_balance =
      s.woox_treasury_balance ∧
    (recordHistory model b s).cumulative_tokens_burned =
      s.cumulative_tokens_burned ∧
    (recordHistory model b s).temporary_price_impact =
      s.temporary_price_impact := by
  unfold recordHistory
  split
  · cases model <;> simp
  · simp

/-- `updateSupply` either skips (invalid burn data) or subtracts a
nonnegative finite burn and purchase. -/
theorem updateSupply_cases (s : SimState) (b : BurnData) :
    updateSupply s b = s ∨
    ∃ tb mp : ℚ, 0 ≤ tb ∧ 0 ≤ mp ∧
      b.tokens_burned = JSNum.num tb ∧
      b.market_purchase_tokens = JSNum.num mp ∧
      updateSupply s b =
        { s with
          total_supply := s.total_supply - JSNum.num tb
          circulating_supply := s.circulating_supply - JSNum.num mp
          cumulative_tokens_burned :=
            s.cumulative_tokens_burned + JSNum.num tb } := by
  unfold updateSupply
  by_cases hg :
      (JSNum.lt b.tokens_burned (JSNum.num 0) || !b.tokens_burned.isFinite ||
        JSNum.lt b.market_purchase_tokens (JSNum.num 0) ||
        !b.market_purchase_tokens.isFinite) = true
  · left
    simp [hg]
  · right
    simp only [Bool.or_eq_true, Bool.not_eq_true', not_or, Bool.not_eq_false] at hg
    obtain ⟨⟨⟨h1, h2⟩, h3⟩, h4⟩ := hg
    obtain ⟨tb, htb⟩ := (JSNum.isFinite_iff _).mp h2
    obtain ⟨mp, hmp⟩ := (JSNum.isFinite_iff _).mp h4
    have htb0 : 0 ≤ tb := by
      rw [htb] at h1
      simpa [JSNum.num_lt, not_lt] using h1
    have hmp0 : 0 ≤ mp := by
      rw [hmp] at h3
      simpa [JSNum.num_lt, not_lt] using h3
    refine ⟨tb, mp, htb0, hmp0, htb, hmp, ?_⟩
    simp [htb, hmp, JSNum.num_lt, JSNum.num_isFinite, not_lt.mpr htb0,
      not_lt.mpr hmp0]

/-! ## C3: clamping applies to Variant A treasuries only, never to supplies -/

/-- A burn result whose market purchase exceeds the circulating supply of
`demoState` (achievable under Variant B with a large buyback and a low
price). -/
def demoBurnBig : BurnData :=
  { buyback_usd := JSNum.num 600
    auto_compound_usd := JSNum.nan
    usdc_distribution := JSNum.nan
    market_purchase_tokens := JSNum.num 600
    tokens_burned := JSNum.num 600
    usdc_to_stakers := JSNum.num 0
    woofi_tokens_burned := JSNum.num 0
    woox_tokens_burned := JSNum.num 0 }

/-- Counterexample to C3: `updateSupply` applies no clamp — a burn of 600
tokens against a circulating supply of 500 leaves the supply at `-100`,
which the source only logs.  The balance is not clamped to `0`. -/
theorem updateSupply_no_clamp_counterexample :
    (updateSupply demoState demoBurnBig).circulating_supply =
      JSNum.num (-100) ∧
    JSNum.lt (updateSupply demoState demoBurnBig).circulating_supply
      (JSNum.num 0) = true := by
  have h : (updateSupply demoState demoBurnBig).circulating_supply =
      JSNum.num (-100) := by
    norm_num [updateSupply, demoState, demoBurnBig, JSNum.num_lt,
      JSNum.num_isFinite, JSNum.num_sub]
  refine ⟨h, ?_⟩
  rw [h]
  norm_num [JSNum.num_lt]

/-- `Math.max(0, ·)` never yields a negative number. -/
theorem jsMax_zero_nonneg (x : JSNum) (q : ℚ)
    (h : JSNum.jsMax (JSNum.num 0) x = JSNum.num q) : 0 ≤ q := by
  cases x <;> simp [JSNum.jsMax] at h
  · rcases h with ⟨rfl⟩
    exact le_max_left 0 _
  · exact h ▸ le_refl 0

/-- C3 (amended): only Variant A's treasury update clamps — after
`updateTreasuryV1` any finite treasury balance (primary or secondary) is
`≥ 0`.  `updateSupply` and the Variant B treasury update apply no clamp;
a negative supply is logged as a boundary condition and the step
continues with the negative value. -/
theorem updateTreasuryV1_clamps_nonneg (s : SimState)
    (d : DistributionData) (b : BurnData) (q : ℚ)
    (h : (updateTreasuryV1 s d b).woofi_treasury_balance = JSNum.num q ∨
      (updateTreasuryV1 s d b).woox_treasury_balance = JSNum.num q) :
    0 ≤ q := by
  rcases h with h | h <;>
    exact jsMax_zero_nonneg _ q h

/-- Witness for the amended C3: the clamp turns a `3 - 50 = -47` primary
treasury balance into `0`. -/
theorem updateTreasuryV1_clamps_nonneg_witness :
    (updateTreasuryV1 demoState demoDist
        { demoBurnBig with woofi_tokens_burned := JSNum.num 50 }).woofi_treasury_balance
      = JSNum.num 0 ∧
    (0 : ℚ) ≤ 0 := by
  have h : (updateTreasuryV1 demoState demoDist
      { demoBurnBig with woofi_tokens_burned := JSNum.num 50 }).woofi_treasury_balance
      = JSNum.num 0 := by
    norm_num [updateTreasuryV1, demoState, demoDist, demoBurnBig,
      JSNum.num_lt, JSNum.num_div, JSNum.num_add, JSNum.num_sub,
      JSNum.num_jsMax]
  refine ⟨h, ?_⟩
  exact updateTreasuryV1_clamps_nonneg demoState demoDist
    { demoBurnBig with woofi_tokens_burned := JSNum.num 50 } 0
    (Or.inl h)

/-! ## C10: the step catches stage errors, returns stop, keeps mutations -/

/-- C10: `simulationStep` never propagates an exception — an error thrown
during history recording (the only reachable throw site, modelled by the
`recordThrows` flag) is caught by the step's `try/catch`, which returns
`false` (stop); the month counter is not incremented, while the Block-3
state mutations already applied (treasury, staking, supply, price) are
not rolled back. -/
theorem step_catches_record_error (p : Params) (model : Model) (s : SimState)
    (hm : s.month < p.simulation_months)
    (hdep : model = Model.v1 →
      JSNum.le s.woofi_treasury_balance (JSNum.num 0) = false) :
    (simulationStepE p model true s).2 = false ∧
    (simulationStepE p model true s).1.month = s.month ∧
    (simulationStepE p model true s).1 =
      updatePrice
        (updateSupply
          (updateStakerPositions model
            (updateTreasury model s
              (distributeFees model p (calculateFees p))
              (calculateBuybackAndBurn model p s
                (distributeFees model p (calculateFees p))))
            (calculateBuybackAndBurn model p s
              (distributeFees model p (calculateFees p))))
          (calculateBuybackAndBurn model p s
            (distributeFees model p (calculateFees p))))
        (calculatePriceImpact p model s
          (calculateBuybackAndBurn model p s
            (distributeFees model p (calculateFees p)))) := by
  have hc : ¬(model = Model.v1 ∧
      JSNum.le s.woofi_treasury_balance (JSNum.num 0) = true) := by
    rintro ⟨h1, h2⟩
    rw [hdep h1] at h2
    exact Bool.false_ne_true h2
  unfold simulationStepE
  rw [if_neg (not_le.mpr hm), if_neg hc]
  refine ⟨rfl, ?_, rfl⟩
  exact (updatePrice_frame _ _).1.trans
    ((updateSupply_frame _ _).1.trans
      ((updateStakerPositions_frame _ _ _).1.trans
        (updateTreasury_frame _ _ _ _).1))

/-- Witness for C10 at the default Variant-B run: the failing step
reports stop and the month counter stays at `0`. -/
theorem step_catches_record_error_witness :
    (simulationStepE nanRun.1 Model.v2 true nanRun.2).2 = false ∧
    (simulationStepE nanRun.1 Model.v2 true nanRun.2).1.month = nanRun.2.month := by
  have h := step_catches_record_error nanRun.1 Model.v2 nanRun.2
    (by decide) (by decide)
  exact ⟨h.1, h.2.1⟩

/-! ## Step characterization lemmas -/

/-- Iterating the step from the front equals applying it at the back. -/
theorem runN_succ_back (p : Params) (model : Model) (n : ℕ) (s : SimState) :
    runN p model (n + 1) s = runStep p model (runN p model n s) := by
  induction n generalizing s with
  | zero => rfl
  | succ n ih =>
      show runN p model (n + 1) (runStep p model s) = _
      rw [ih]
      rfl

/-- A step that hits a termination condition returns the state
unchanged. -/
theorem runStep_eq_of_ended (p : Params) (model : Model) (s : SimState)
    (h : p.simulation_months ≤ s.month ∨
      (model = Model.v1 ∧
        JSNum.le s.woofi_treasury_balance (JSNum.num 0) = true)) :
    runStep p model s = s := by
  unfold runStep simulationStep simulationStepE
  rcases h with h | h
  · rw [if_pos h]
  · by_cases h1 : p.simulation_months ≤ s.month
    · rw [if_pos h1]
    · rw [if_neg h1, if_pos h]

/-- A step that passes both termination checks runs the full pipeline and
increments the month. -/
theorem runStep_eq_of_runs (p : Params) (model : Model) (s : SimState)
    (hm : ¬ p.simulation_months ≤ s.month)
    (hdep : ¬(model = Model.v1 ∧
      JSNum.le s.woofi_treasury_balance (JSNum.num 0) = true)) :
    runStep p model s =
      { recordHistory model
          (calculateBuybackAndBurn model p s
            (distributeFees model p (calculateFees p)))
          (updatePrice
            (updateSupply
              (updateStakerPositions model
                (updateTreasury model s
                  (distributeFees model p (calculateFees p))
                  (calculateBuybackAndBurn model p s
                    (distributeFees model p (calculateFees p))))
                (calculateBuybackAndBurn model p s
                  (distributeFees model p (calculateFees p))))
              (calculateBuybackAndBurn model p s
                (distributeFees model p (calculateFees p))))
            (calculatePriceImpact p model s
              (calculateBuybackAndBurn model p s
                (distributeFees model p (calculateFees p))))) with
        month :=
          (recordHistory model
            (calculateBuybackAndBurn model p s
              (distributeFees model p (calculateFees p)))
            (updatePrice
              (updateSupply
                (updateStakerPositions model
                  (updateTreasury model s
                    (distributeFees model p (calculateFees p))
                    (calculateBuybackAndBurn model p s
                      (distributeFees model p (calculateFees p))))
                  (calculateBuybackAndBurn model p s
                    (distributeFees model p (calculateFees p))))
                (calculateBuybackAndBurn model p s
                  (distributeFees model p (calculateFees p))))
              (calculatePriceImpact p model s
                (calculateBuybackAndBurn model p s
                  (distributeFees model p (calculateFees p)))))).month + 1 } := by
  unfold runStep simulationStep simulationStepE
  rw [if_neg hm, if_neg hdep]
  rfl

/-! ## C9: total_supply + cumulative burn is conserved -/

/-- Through one full Block-3 pipeline (with arbitrary stage data), the sum
`total_supply + cumulative_tokens_burned` is unchanged: `updateSupply`
moves the burn from one field to the other and no other stage touches
either. -/
theorem pipeline_total_cum (model : Model) (s : SimState)
    (dist : DistributionData) (bd : BurnData) (pid : PriceImpactData)
    (t c : ℚ)
    (ht : s.total_supply = JSNum.num t)
    (hc : s.cumulative_tokens_burned = JSNum.num c) :
    ∃ t2 c2 : ℚ,
      (recordHistory model bd
        (updatePrice
          (updateSupply
            (updateStakerPositions model (updateTreasury model s dist bd) bd)
            bd)
          pid)).total_supply = JSNum.num t2 ∧
      (recordHistory model bd
        (updatePrice
          (updateSupply
            (updateStakerPositions model (updateTreasury model s dist bd) bd)
            bd)
          pid)).cumulative_tokens_burned = JSNum.num c2 ∧
      t2 + c2 = t + c := by
  obtain ⟨-, -, -, ht1, -, -, hc1, -⟩ := updateTreasury_frame model s dist bd
  obtain ⟨-, -, -, ht2, -, -, -, hc2, -⟩ :=
    updateStakerPositions_frame model (updateTreasury model s dist bd) bd
  obtain ⟨-, -, ht4, -, -, -, -, hc4⟩ :=
    updatePrice_frame
      (updateSupply
        (updateStakerPositions model (updateTreasury model s dist bd) bd) bd)
      pid
  obtain ⟨-, -, -, ht5, -, -, -, -, hc5, -⟩ :=
    recordHistory_frame model bd
      (updatePrice
        (updateSupply
          (updateStakerPositions model (updateTreasury model s dist bd) bd)
          bd)
        pid)
  rcases updateSupply_cases
      (updateStakerPositions model (updateTreasury model s dist bd) bd) bd with
    h3 | ⟨tb, mp, htb0, hmp0, htbe, hmpe, h3⟩
  · refine ⟨t, c, ?_, ?_, rfl⟩
    · rw [ht5, ht4, h3, ht2, ht1]
      exact ht
    · rw [hc5, hc4, h3, hc2, hc1]
      exact hc
  · refine ⟨t - tb, c + tb, ?_, ?_, by ring⟩
    · rw [ht5, ht4, h3]
      show (updateStakerPositions model (updateTreasury model s dist bd)
          bd).total_supply - JSNum.num tb = JSNum.num (t - tb)
      rw [ht2, ht1, ht, JSNum.num_sub]
    · rw [hc5, hc4, h3]
      show (updateStakerPositions model (updateTreasury model s dist bd)
          bd).cumulative_tokens_burned + JSNum.num tb = JSNum.num (c + tb)
      rw [hc2, hc1, hc, JSNum.num_add]

/-- One step preserves the sum of `total_supply` and
`cumulative_tokens_burned` (finite values). -/
theorem runStep_total_cum (p : Params) (model : Model) (s : SimState)
    (t c : ℚ)
    (ht : s.total_supply = JSNum.num t)
    (hc : s.cumulative_tokens_burned = JSNum.num c) :
    ∃ t2 c2 : ℚ, (runStep p model s).total_supply = JSNum.num t2 ∧
      (runStep p model s).cumulative_tokens_burned = JSNum.num c2 ∧
      t2 + c2 = t + c := by
  by_cases hm : p.simulation_months ≤ s.month
  · rw [runStep_eq_of_ended p model s (Or.inl hm)]
    exact ⟨t, c, ht, hc, rfl⟩
  by_cases hdep : model = Model.v1 ∧
      JSNum.le s.woofi_treasury_balance (JSNum.num 0) = true
  · rw [runStep_eq_of_ended p model s (Or.inr hdep)]
    exact ⟨t, c, ht, hc, rfl⟩
  rw [runStep_eq_of_runs p model s hm hdep]
  obtain ⟨t2, c2, h1, h2, h3⟩ := pipeline_total_cum model s
    (distributeFees model p (calculateFees p))
    (calculateBuybackAndBurn model p s (distributeFees model p (calculateFees p)))
    (calculatePriceImpact p model s
      (calculateBuybackAndBurn model p s (distributeFees model p (calculateFees p))))
    t c ht hc
  exact ⟨t2, c2, h1, h2, h3⟩

/-- C9: burn-accounting conservation.  A freshly initialized state always
carries `total_supply = 2,209,243,570` and a zero cumulative burn, and for
every run (either variant) and every month,
`total_supply + cumulative_tokens_burned` stays exactly equal to that
initial total supply. -/
theorem burn_conservation (q : Params) (st wf wx : JSNum) (p : Params)
    (model : Model) (s0 : SimState) (n : ℕ)
    (ht : s0.total_supply = JSNum.num CONFIG_total_supply)
    (hc : s0.cumulative_tokens_burned = JSNum.num 0) :
    (mkInitState q st wf wx).total_supply = JSNum.num CONFIG_total_supply ∧
    (mkInitState q st wf wx).cumulative_tokens_burned = JSNum.num 0 ∧
    (runN p model n s0).total_supply +
      (runN p model n s0).cumulative_tokens_burned
      = JSNum.num CONFIG_total_supply := by
  refine ⟨rfl, rfl, ?_⟩
  have key : ∀ m : ℕ, ∃ t c : ℚ,
      (runN p model m s0).total_supply = JSNum.num t ∧
      (runN p model m s0).cumulative_tokens_burned = JSNum.num c ∧
      t + c = CONFIG_total_supply := by
    intro m
    induction m with
    | zero => exact ⟨CONFIG_total_supply, 0, ht, hc, by ring⟩
    | succ m ih =>
        obtain ⟨t, c, h1, h2, h3⟩ := ih
        obtain ⟨t2, c2, g1, g2, g3⟩ :=
          runStep_total_cum p model (runN p model m s0) t c h1 h2
        rw [runN_succ_back]
        exact ⟨t2, c2, g1, g2, by rw [g3, h3]⟩
  obtain ⟨t, c, h1, h2, h3⟩ := key n
  rw [h1, h2, JSNum.num_add, h3]

/-- The run produced by `initialize(defaultControls, 'v2')`. -/
def defRun : Params × SimState := (initSim defaultControls Model.v2).get (by decide)

/-- Witness for C9 at the default Variant-B run. -/
theorem burn_conservation_witness :
    (mkInitState defRun.1 (JSNum.num 0) (JSNum.num 0) (JSNum.num 0)).total_supply
      = JSNum.num CONFIG_total_supply ∧
    (mkInitState defRun.1 (JSNum.num 0) (JSNum.num 0)
        (JSNum.num 0)).cumulative_tokens_burned = JSNum.num 0 ∧
    (runN defRun.1 Model.v2 0 defRun.2).total_supply +
      (runN defRun.1 Model.v2 0 defRun.2).cumulative_tokens_burned
      = JSNum.num CONFIG_total_supply := by
  exact burn_conservation defRun.1 (JSNum.num 0) (JSNum.num 0) (JSNum.num 0)
    defRun.1 Model.v2 defRun.2 0 rfl rfl


/-! ## C4: supply ordering and monotonicity -/


/-- `NaN` absorbs addition on the left. -/
theorem JSNum.nan_add (x : JSNum) : JSNum.nan + x = JSNum.nan := by
  cases x <;> rfl

/-- Adding a finite number to `+Infinity`. -/
theorem JSNum.inf_add_num (a : ℚ) : JSNum.inf + JSNum.num a = JSNum.inf := rfl

/-- Adding a finite number to `-Infinity`. -/
theorem JSNum.ninf_add_num (a : ℚ) : JSNum.ninf + JSNum.num a = JSNum.ninf := rfl

/-- The burn stage never burns more than it purchases: under V1 the burn
is `min(purchase, treasury)` and under V2 it equals the purchase. -/
theorem burn_tb_le_mp (model : Model) (p : Params) (s : SimState)
    (d : DistributionData) (tb mp : ℚ)
    (htb : (calculateBuybackAndBurn model p s d).tokens_burned = JSNum.num tb)
    (hmp : (calculateBuybackAndBurn model p s d).market_purchase_tokens =
      JSNum.num mp) :
    tb ≤ mp := by
  cases model
  · by_cases hg1 : (JSNum.lt d.total_staker_rewards_usd (JSNum.num 0) ||
        !d.total_staker_rewards_usd.isFinite) = true
    · simp only [calculateBuybackAndBurn, calculateAutoCompoundAndBurn, hg1,
        if_true, JSNum.num.injEq] at htb hmp
      rw [← htb, ← hmp]
    · by_cases hg2 : (JSNum.le s.woo_price (JSNum.num 0) ||
          !s.woo_price.isFinite) = true
      · simp only [calculateBuybackAndBurn, calculateAutoCompoundAndBurn, hg1,
          hg2, if_true, Bool.false_eq_true, if_false, JSNum.num.injEq]
          at htb hmp
        rw [← htb, ← hmp]
      · simp only [calculateBuybackAndBurn, calculateAutoCompoundAndBurn, hg1,
          hg2, Bool.false_eq_true, if_false] at htb hmp
        rw [hmp] at htb
        cases hT : s.woofi_treasury_balance <;> rw [hT] at htb <;>
          simp only [JSNum.jsMin, JSNum.nan_add, JSNum.inf_add_num,
            JSNum.ninf_add_num, JSNum.num_add, add_zero,
            JSNum.num.injEq] at htb
        · rw [← htb]
          exact min_le_left _ _
        · exact JSNum.noConfusion htb
        · exact le_of_eq htb.symm
        · exact JSNum.noConfusion htb
  · have heq : (calculateBuybackAndBurn Model.v2 p s d).tokens_burned =
        (calculateBuybackAndBurn Model.v2 p s d).market_purchase_tokens := by
      by_cases hg1 : (JSNum.lt d.buyback_burn_amount (JSNum.num 0) ||
          !d.buyback_burn_amount.isFinite) = true
      · simp [calculateBuybackAndBurn, calculateBuybackAndBurnV2, hg1]
      · by_cases hg2 : (JSNum.le s.woo_price (JSNum.num 0) ||
            !s.woo_price.isFinite) = true
        · simp [calculateBuybackAndBurn, calculateBuybackAndBurnV2, hg1, hg2]
        · simp [calculateBuybackAndBurn, calculateBuybackAndBurnV2, hg1, hg2]
    rw [heq, hmp, JSNum.num.injEq] at htb
    exact le_of_eq htb.symm

/-- One step can only shrink (finitely valued) supplies, and it shrinks
`circulating_supply` at least as much as `total_supply`. -/
theorem runStep_supply_ordered (p : Params) (model : Model) (s : SimState)
    (t c : ℚ)
    (ht : s.total_supply = JSNum.num t)
    (hc : s.circulating_supply = JSNum.num c) :
    ∃ t2 c2 : ℚ, (runStep p model s).total_supply = JSNum.num t2 ∧
      (runStep p model s).circulating_supply = JSNum.num c2 ∧
      t2 ≤ t ∧ c2 ≤ c ∧ t - c ≤ t2 - c2 := by
  by_cases hm : p.simulation_months ≤ s.month
  · rw [runStep_eq_of_ended p model s (Or.inl hm)]
    exact ⟨t, c, ht, hc, le_refl t, le_refl c, le_refl _⟩
  by_cases hdep : model = Model.v1 ∧
      JSNum.le s.woofi_treasury_balance (JSNum.num 0) = true
  · rw [runStep_eq_of_ended p model s (Or.inr hdep)]
    exact ⟨t, c, ht, hc, le_refl t, le_refl c, le_refl _⟩
  rw [runStep_eq_of_runs p model s hm hdep]
  obtain ⟨-, -, -, ht1, hcc1, -, -, -⟩ := updateTreasury_frame model s
    (distributeFees model p (calculateFees p))
    (calculateBuybackAndBurn model p s (distributeFees model p (calculateFees p)))
  obtain ⟨-, -, -, ht2, hcc2, -, -, -, -⟩ :=
    updateStakerPositions_frame model
      (updateTreasury model s
        (distributeFees model p (calculateFees p))
        (calculateBuybackAndBurn model p s
          (distributeFees model p (calculateFees p))))
      (calculateBuybackAndBurn model p s (distributeFees model p (calculateFees p)))
  obtain ⟨-, -, ht4, hcc4, -, -, -, -⟩ :=
    updatePrice_frame
      (updateSupply
        (updateStakerPositions model
          (updateTreasury model s
            (distributeFees model p (calculateFees p))
            (calculateBuybackAndBurn model p s
              (distributeFees model p (calculateFees p))))
          (calculateBuybackAndBurn model p s
            (distributeFees model p (calculateFees p))))
        (calculateBuybackAndBurn model p s
          (distributeFees model p (calculateFees p))))
      (calculatePriceImpact p model s
        (calculateBuybackAndBurn model p s
          (distributeFees model p (calculateFees p))))
  obtain ⟨-, -, -, ht5, hcc5, -, -, -, -, -⟩ :=
    recordHistory_frame model
      (calculateBuybackAndBurn model p s (distributeFees model p (calculateFees p)))
      (updatePrice
        (updateSupply
          (updateStakerPositions model
            (updateTreasury model s
              (distributeFees model p (calculateFees p))
              (calculateBuybackAndBurn model p s
                (distributeFees model p (calculateFees p))))
            (calculateBuybackAndBurn model p s
              (distributeFees model p (calculateFees p))))
          (calculateBuybackAndBurn model p s
            (distributeFees model p (calculateFees p))))
        (calculatePriceImpact p model s
          (calculateBuybackAndBurn model p s
            (distributeFees model p (calculateFees p)))))
  rcases updateSupply_cases
      (updateStakerPositions model
        (updateTreasury model s
          (distributeFees model p (calculateFees p))
          (calculateBuybackAndBurn model p s
            (distributeFees model p (calculateFees p))))
        (calculateBuybackAndBurn model p s
          (distributeFees model p (calculateFees p))))
      (calculateBuybackAndBurn model p s
        (distributeFees model p (calculateFees p))) with
    h3 | ⟨tb, mp, htb0, hmp0, htbe, hmpe, h3⟩
  · refine ⟨t, c, ?_, ?_, le_refl t, le_refl c, le_refl _⟩
    · rw [ht5, ht4, h3, ht2, ht1]
      exact ht
    · rw [hcc5, hcc4, h3, hcc2, hcc1]
      exact hc
  · have hle : tb ≤ mp := burn_tb_le_mp model p s
      (distributeFees model p (calculateFees p)) tb mp htbe hmpe
    refine ⟨t - tb, c - mp, ?_, ?_, by linarith, by linarith, by linarith⟩
    · rw [ht5, ht4, h3]
      show (updateStakerPositions model
          (updateTreasury model s
            (distributeFees model p (calculateFees p))
            (calculateBuybackAndBurn model p s
              (distributeFees model p (calculateFees p))))
          (calculateBuybackAndBurn model p s
            (distributeFees model p (calculateFees p)))).total_supply -
          JSNum.num tb = JSNum.num (t - tb)
      rw [ht2, ht1, ht, JSNum.num_sub]
    · rw [hcc5, hcc4, h3]
      show (updateStakerPositions model
          (updateTreasury model s
            (distributeFees model p (calculateFees p))
            (calculateBuybackAndBurn model p s
              (distributeFees model p (calculateFees p))))
          (calculateBuybackAndBurn model p s
            (distributeFees model p (calculateFees p)))).circulating_supply -
          JSNum.num mp = JSNum.num (c - mp)
      rw [hcc2, hcc1, hc, JSNum.num_sub]

/-- The default controls with the circulating-supply slider pushed to
3000 (million), above the fixed initial total supply. -/
def bigCircControls : Controls :=
  { defaultControls with circulatingSupply := some (JSNum.num 3000) }

/-- The run produced by `initialize(bigCircControls, 'v2')`. -/
def bigCircRun : Params × SimState :=
  (initSim bigCircControls Model.v2).get (by decide)

/-- Counterexample to C4: the initial circulating supply is user-supplied
and nothing bounds it by the total supply, so at month 0 of this run
`circulating_supply = 3,000,000,000 > 2,209,243,570 = total_supply`. -/
theorem supply_ordering_counterexample :
    bigCircRun.2.total_supply = JSNum.num CONFIG_total_supply ∧
    bigCircRun.2.circulating_supply = JSNum.num (3000 * 1000000) ∧
    ¬ JSNum.sle bigCircRun.2.circulating_supply bigCircRun.2.total_supply := by
  refine ⟨rfl, rfl, ?_⟩
  show ¬ JSNum.sle (JSNum.num (3000 * 1000000)) (JSNum.num CONFIG_total_supply)
  simp only [JSNum.sle, CONFIG_total_supply]
  norm_num

/-- C4 (amended): provided the configured initial circulating supply does
not exceed the fixed initial total supply, every month of every run (both
variants) satisfies `circulating_supply <= total_supply <= max_supply`,
and both supplies are monotonically non-increasing month over month. -/
theorem supply_order_monotone (p : Params) (model : Model) (s0 : SimState)
    (t0 c0 : ℚ) (n : ℕ)
    (ht : s0.total_supply = JSNum.num t0)
    (hc : s0.circulating_supply = JSNum.num c0)
    (hord : c0 ≤ t0) (hmax : t0 ≤ CONFIG_max_supply) :
    JSNum.sle (runN p model n s0).circulating_supply
      (runN p model n s0).total_supply ∧
    JSNum.sle (runN p model n s0).total_supply (JSNum.num CONFIG_max_supply) ∧
    JSNum.sle (runN p model (n + 1) s0).total_supply
      (runN p model n s0).total_supply ∧
    JSNum.sle (runN p model (n + 1) s0).circulating_supply
      (runN p model n s0).circulating_supply := by
  have key : ∀ m : ℕ, ∃ t c : ℚ,
      (runN p model m s0).total_supply = JSNum.num t ∧
      (runN p model m s0).circulating_supply = JSNum.num c ∧
      c ≤ t ∧ t ≤ CONFIG_max_supply := by
    intro m
    induction m with
    | zero => exact ⟨t0, c0, ht, hc, hord, hmax⟩
    | succ m ih =>
        obtain ⟨t, c, h1, h2, h3, h4⟩ := ih
        obtain ⟨t2, c2, g1, g2, g3, g4, g5⟩ :=
          runStep_supply_ordered p model (runN p model m s0) t c h1 h2
        rw [runN_succ_back]
        exact ⟨t2, c2, g1, g2, by linarith, by linarith⟩
  obtain ⟨t, c, h1, h2, h3, h4⟩ := key n
  obtain ⟨t2, c2, g1, g2, g3, g4, g5⟩ :=
    runStep_supply_ordered p model (runN p model n s0) t c h1 h2
  rw [runN_succ_back p model n s0]
  rw [h1, h2, g1, g2]
  exact ⟨h3, h4, g3, g4⟩

/-- Witness for the amended C4 at the default Variant-B run. -/
theorem supply_order_monotone_witness :
    JSNum.sle (runN defRun.1 Model.v2 0 defRun.2).circulating_supply
      (runN defRun.1 Model.v2 0 defRun.2).total_supply ∧
    JSNum.sle (runN defRun.1 Model.v2 0 defRun.2).total_supply
      (JSNum.num CONFIG_max_supply) ∧
    JSNum.sle (runN defRun.1 Model.v2 1 defRun.2).total_supply
      (runN defRun.1 Model.v2 0 defRun.2).total_supply ∧
    JSNum.sle (runN defRun.1 Model.v2 1 defRun.2).circulating_supply
      (runN defRun.1 Model.v2 0 defRun.2).circulating_supply := by
  exact supply_order_monotone defRun.1 Model.v2 defRun.2
    CONFIG_total_supply (19092 / 10 * 1000000) 0 rfl rfl
    (by norm_num [CONFIG_total_supply])
    (by norm_num [CONFIG_total_supply, CONFIG_max_supply])

/-! ## C6: price multiplier, clamp, and lifetime range -/

/-- `updatePrice` either skips (non-finite or non-positive multiplier)
or applies the clamped multiplication with a positive finite
multiplier. -/
theorem updatePrice_cases (s : SimState) (pid : PriceImpactData) :
    (updatePrice s pid).woo_price = s.woo_price ∨
    ∃ m : ℚ,
      JSNum.num 1 + pid.permanent_impact + pid.total_temporary_impact =
        JSNum.num m ∧ 0 < m ∧
      (updatePrice s pid).woo_price =
        JSNum.jsMax (JSNum.num (1 / 10000))
          (JSNum.jsMin (JSNum.num 1000) (s.woo_price * JSNum.num m)) := by
  by_cases hg :
      ((JSNum.num 1 + pid.permanent_impact + pid.total_temporary_impact).isNaN ||
        !(JSNum.num 1 + pid.permanent_impact +
            pid.total_temporary_impact).isFinite ||
        JSNum.le (JSNum.num 1 + pid.permanent_impact +
          pid.total_temporary_impact) (JSNum.num 0)) = true
  · left
    simp only [updatePrice, hg, if_true]
  · right
    simp only [Bool.or_eq_true, not_or, Bool.not_eq_true, Bool.not_eq_false]
      at hg
    obtain ⟨⟨h1, h2⟩, h3⟩ := hg
    have h2f : (JSNum.num 1 + pid.permanent_impact +
        pid.total_temporary_impact).isFinite = true := by
      simpa using h2
    obtain ⟨m, hm⟩ := (JSNum.isFinite_iff _).mp h2f
    refine ⟨m, hm, ?_, ?_⟩
    · rw [hm] at h3
      simpa [JSNum.num_le, not_le] using h3
    · rw [hm] at h3
      have hgf : ((JSNum.num m).isNaN || !(JSNum.num m).isFinite ||
          JSNum.le (JSNum.num m) (JSNum.num 0)) = false := by
        simp [JSNum.isNaN, JSNum.num_isFinite, h3]
      simp only [updatePrice, hm, hgf, Bool.false_eq_true, if_false]

/-- One step keeps the spot price finite and inside `[0.0001, 1000]`. -/
theorem runStep_price_range (p : Params) (model : Model) (s : SimState)
    (q : ℚ) (hq : s.woo_price = JSNum.num q)
    (hlo : 1 / 10000 ≤ q) (hhi : q ≤ 1000) :
    ∃ q2 : ℚ, (runStep p model s).woo_price = JSNum.num q2 ∧
      1 / 10000 ≤ q2 ∧ q2 ≤ 1000 := by
  by_cases hm : p.simulation_months ≤ s.month
  · rw [runStep_eq_of_ended p model s (Or.inl hm)]
    exact ⟨q, hq, hlo, hhi⟩
  by_cases hdep : model = Model.v1 ∧
      JSNum.le s.woofi_treasury_balance (JSNum.num 0) = true
  · rw [runStep_eq_of_ended p model s (Or.inr hdep)]
    exact ⟨q, hq, hlo, hhi⟩
  rw [runStep_eq_of_runs p model s hm hdep]
  obtain ⟨-, hp1, -, -, -, -, -, -⟩ := updateTreasury_frame model s
    (distributeFees model p (calculateFees p))
    (calculateBuybackAndBurn model p s (distributeFees model p (calculateFees p)))
  obtain ⟨-, hp2, -, -, -, -, -, -, -⟩ :=
    updateStakerPositions_frame model
      (updateTreasury model s
        (distributeFees model p (calculateFees p))
        (calculateBuybackAndBurn model p s
          (distributeFees model p (calculateFees p))))
      (calculateBuybackAndBurn model p s (distributeFees model p (calculateFees p)))
  obtain ⟨-, hp3, -, -, -, -, -⟩ :=
    updateSupply_frame
      (updateStakerPositions model
        (updateTreasury model s
          (distributeFees model p (calculateFees p))
          (calculateBuybackAndBurn model p s
            (distributeFees model p (calculateFees p))))
        (calculateBuybackAndBurn model p s
          (distributeFees model p (calculateFees p))))
      (calculateBuybackAndBurn model p s (distributeFees model p (calculateFees p)))
  obtain ⟨-, hp5, -, -, -, -, -, -, -, -⟩ :=
    recordHistory_frame model
      (calculateBuybackAndBurn model p s (distributeFees model p (calculateFees p)))
      (updatePrice
        (updateSupply
          (updateStakerPositions model
            (updateTreasury model s
              (distributeFees model p (calculateFees p))
              (calculateBuybackAndBurn model p s
                (distributeFees model p (calculateFees p))))
            (calculateBuybackAndBurn model p s
              (distributeFees model p (calculateFees p))))
          (calculateBuybackAndBurn model p s
            (distributeFees model p (calculateFees p))))
        (calculatePriceImpact p model s
          (calculateBuybackAndBurn model p s
            (distributeFees model p (calculateFees p)))))
  have hq3 :
      (updateSupply
        (updateStakerPositions model
          (updateTreasury model s
            (distributeFees model p (calculateFees p))
            (calculateBuybackAndBurn model p s
              (distributeFees model p (calculateFees p))))
          (calculateBuybackAndBurn model p s
            (distributeFees model p (calculateFees p))))
        (calculateBuybackAndBurn model p s
          (distributeFees model p (calculateFees p)))).woo_price = JSNum.num q := by
    rw [hp3, hp2, hp1, hq]
  rcases updatePrice_cases
      (updateSupply
        (updateStakerPositions model
          (updateTreasury model s
            (distributeFees model p (calculateFees p))
            (calculateBuybackAndBurn model p s
              (distributeFees model p (calculateFees p))))
          (calculateBuybackAndBurn model p s
            (distributeFees model p (calculateFees p))))
        (calculateBuybackAndBurn model p s
          (distributeFees model p (calculateFees p))))
      (calculatePriceImpact p model s
        (calculateBuybackAndBurn model p s
          (distributeFees model p (calculateFees p)))) with
    h4 | ⟨m, hmm, hm0, h4⟩
  · refine ⟨q, ?_, hlo, hhi⟩
    rw [hp5, h4, hq3]
  · refine ⟨max (1 / 10000) (min 1000 (q * m)), ?_, le_max_left _ _,
      max_le (by norm_num) (min_le_left _ _)⟩
    rw [hp5, h4, hq3, JSNum.num_mul, JSNum.num_jsMin, JSNum.num_jsMax]

/-- C6: with a finite positive multiplier `m = 1 + permanent + temporary`
the new spot price is the old price times `m` clamped into
`[0.0001, 1000]`; a non-finite or non-positive multiplier skips the
update and the price holds.  Consequently, for any run starting in range
(as every initialized run does, at `0.065`), the spot price lies in
`[0.0001, 1000]` at every month. -/
theorem price_clamp_and_range
    (s : SimState) (pid : PriceImpactData) (pr m : ℚ)
    (p : Params) (model : Model) (s0 : SimState) (pr0 : ℚ) (n : ℕ)
    (hpr : s.woo_price = JSNum.num pr)
    (h0 : s0.woo_price = JSNum.num pr0)
    (hlo : 1 / 10000 ≤ pr0) (hhi : pr0 ≤ 1000) :
    ((JSNum.num 1 + pid.permanent_impact + pid.total_temporary_impact =
        JSNum.num m ∧ 0 < m) →
      (updatePrice s pid).woo_price =
        JSNum.num (max (1 / 10000) (min 1000 (pr * m)))) ∧
    (((JSNum.num 1 + pid.permanent_impact +
          pid.total_temporary_impact).isFinite = false ∨
        JSNum.le (JSNum.num 1 + pid.permanent_impact +
          pid.total_temporary_impact) (JSNum.num 0) = true) →
      (updatePrice s pid).woo_price = s.woo_price) ∧
    ∃ prn : ℚ, (runN p model n s0).woo_price = JSNum.num prn ∧
      1 / 10000 ≤ prn ∧ prn ≤ 1000 := by
  refine ⟨?_, ?_, ?_⟩
  · rintro ⟨hm, hm0⟩
    have h3 : JSNum.le (JSNum.num m) (JSNum.num 0) = false := by
      simp [JSNum.num_le, not_le.mpr hm0]
    have hgf : ((JSNum.num m).isNaN || !(JSNum.num m).isFinite ||
        JSNum.le (JSNum.num m) (JSNum.num 0)) = false := by
      simp [JSNum.isNaN, JSNum.num_isFinite, h3]
    simp only [updatePrice, hm, hgf, Bool.false_eq_true, if_false]
    rw [hpr, JSNum.num_mul, JSNum.num_jsMin, JSNum.num_jsMax]
  · intro hbad
    have hg : ((JSNum.num 1 + pid.permanent_impact +
        pid.total_temporary_impact).isNaN ||
        !(JSNum.num 1 + pid.permanent_impact +
            pid.total_temporary_impact).isFinite ||
        JSNum.le (JSNum.num 1 + pid.permanent_impact +
          pid.total_temporary_impact) (JSNum.num 0)) = true := by
      rcases hbad with h | h <;> simp [h]
    simp only [updatePrice, hg, if_true]
  · have key : ∀ k : ℕ, ∃ q : ℚ,
        (runN p model k s0).woo_price = JSNum.num q ∧
        1 / 10000 ≤ q ∧ q ≤ 1000 := by
      intro k
      induction k with
      | zero => exact ⟨pr0, h0, hlo, hhi⟩
      | succ k ih =>
          obtain ⟨q, h1, h2, h3⟩ := ih
          obtain ⟨q2, g1, g2, g3⟩ :=
            runStep_price_range p model (runN p model k s0) q h1 h2 h3
          rw [runN_succ_back]
          exact ⟨q2, g1, g2, g3⟩
    exact key n

/-- Witness for C6: a unit multiplier at `demoState` and the in-range
price after month 1 of the default Variant-B run. -/
theorem price_clamp_and_range_witness :
    (updatePrice demoState
        { permanent_impact := JSNum.num 0
          new_temporary_impact := JSNum.num 0
          total_temporary_impact := JSNum.num 0 }).woo_price =
      JSNum.num (max (1 / 10000) (min 1000 (1 * 1))) ∧
    ∃ prn : ℚ, (runN defRun.1 Model.v2 1 defRun.2).woo_price = JSNum.num prn ∧
      1 / 10000 ≤ prn ∧ prn ≤ 1000 := by
  have h := price_clamp_and_range demoState
    { permanent_impact := JSNum.num 0
      new_temporary_impact := JSNum.num 0
      total_temporary_impact := JSNum.num 0 }
    1 1 defRun.1 Model.v2 defRun.2 CONFIG_woo_price 1 rfl rfl
    (by norm_num [CONFIG_woo_price]) (by norm_num [CONFIG_woo_price])
  refine ⟨h.1 ⟨?_, by norm_num⟩, h.2.2⟩
  show JSNum.num 1 + JSNum.num 0 + JSNum.num 0 = JSNum.num 1
  rw [JSNum.num_add, JSNum.num_add]
  norm_num

/-! ## C8: annual ratios only at year ends; zero denominator stores null -/

/-- C8: the annual ratios are computed exactly at months `m` with
`(m + 1) % 12 = 0` (all three ratio arrays are untouched at any other
month), stored at index `yearNumber - 1` from the trailing 12-month
window; and whenever a ratio's denominator is zero the stored value is
the `null` marker (`none`), never infinity — only finite ratios are ever
stored (`toFiniteOpt`). -/
theorem annual_ratio_computation (model : Model) (bd : BurnData) (s : SimState) :
    ((s.month + 1) % 12 ≠ 0 →
      (recordHistory model bd s).annual_pr_ratios = s.annual_pr_ratios ∧
      (recordHistory model bd s).annual_pv_ratios_usd = s.annual_pv_ratios_usd ∧
      (recordHistory model bd s).annual_pv_ratios_market =
        s.annual_pv_ratios_market) ∧
    ((s.month + 1) % 12 = 0 →
      ((recordHistory Model.v1 bd s).annual_pr_ratios =
          setAt s.annual_pr_ratios ((s.month + 1) / 12 - 1)
            (prStored (pushedHistory Model.v1 bd s) s) ∧
        (prDenominator (pushedHistory Model.v1 bd s) s = JSNum.num 0 →
          prStored (pushedHistory Model.v1 bd s) s = none)) ∧
      ((recordHistory Model.v2 bd s).annual_pv_ratios_usd =
          setAt s.annual_pv_ratios_usd ((s.month + 1) / 12 - 1)
            (pvUsdStored (pushedHistory Model.v2 bd s) s) ∧
        (pvUsdDenominator (pushedHistory Model.v2 bd s) = JSNum.num 0 →
          pvUsdStored (pushedHistory Model.v2 bd s) s = none)) ∧
      ((recordHistory Model.v2 bd s).annual_pv_ratios_market =
          setAt s.annual_pv_ratios_market ((s.month + 1) / 12 - 1)
            (pvMarketStored (pushedHistory Model.v2 bd s) s) ∧
        (pvMarketDenominator (pushedHistory Model.v2 bd s) s = JSNum.num 0 →
          pvMarketStored (pushedHistory Model.v2 bd s) s = none))) := by
  constructor
  · intro h
    cases model <;> simp [recordHistory, if_neg h]
  · intro h
    refine ⟨⟨?_, ?_⟩, ⟨?_, ?_⟩, ⟨?_, ?_⟩⟩
    · simp only [recordHistory, if_pos h]
    · intro hz
      simp only [prStored, hz, JSNum.num_lt]
      norm_num [toFiniteOpt]
    · simp only [recordHistory, if_pos h]
    · intro hz
      simp only [pvUsdStored, hz, JSNum.num_lt]
      norm_num [toFiniteOpt]
    · simp only [recordHistory, if_pos h]
    · intro hz
      simp only [pvMarketStored, hz, JSNum.num_lt]
      norm_num [toFiniteOpt]

/-- `JSNum.add` on finite values (the raw form used by `annualSum`). -/
theorem JSNum.add_num_num (a b : ℚ) :
    JSNum.add (JSNum.num a) (JSNum.num b) = JSNum.num (a + b) := rfl

/-- A burn result with every field zero. -/
def zeroBurn : BurnData :=
  { buyback_usd := JSNum.num 0
    auto_compound_usd := JSNum.num 0
    usdc_distribution := JSNum.num 0
    market_purchase_tokens := JSNum.num 0
    tokens_burned := JSNum.num 0
    usdc_to_stakers := JSNum.num 0
    woofi_tokens_burned := JSNum.num 0
    woox_tokens_burned := JSNum.num 0 }

/-- A state at month 11 (so the next record is month 12) with eleven
all-zero history rows. -/
def yearEndState : SimState :=
  { demoState with
    month := 11
    history :=
      { months := [1, 2, 3, 4, 5, 6, 7, 8, 9, 10, 11]
        usdc_distributed := List.replicate 11 (JSNum.num 0)
        buyback_amounts := List.replicate 11 (JSNum.num 0)
        auto_compound_amounts := List.replicate 11 (JSNum.num 0)
        monthlyBurned := List.replicate 11 (JSNum.num 0) } }

/-- Witness for C8: at month 12 of an all-zero run the cash-flow ratio
denominator is zero and `null` is stored at year index 0. -/
theorem annual_ratio_computation_witness :
    pvUsdDenominator (pushedHistory Model.v2 zeroBurn yearEndState) =
      JSNum.num 0 ∧
    (recordHistory Model.v2 zeroBurn yearEndState).annual_pv_ratios_usd =
      setAt yearEndState.annual_pv_ratios_usd
        ((yearEndState.month + 1) / 12 - 1)
        (pvUsdStored (pushedHistory Model.v2 zeroBurn yearEndState)
          yearEndState) ∧
    pvUsdStored (pushedHistory Model.v2 zeroBurn yearEndState) yearEndState =
      none := by
  have hz : pvUsdDenominator (pushedHistory Model.v2 zeroBurn yearEndState) =
      JSNum.num 0 := by
    norm_num [pvUsdDenominator, annualUSDC, annualBuybackUSD, annualSum,
      annualWindowStart, pushedHistory, yearEndState, zeroBurn, demoState,
      demoHistory, List.replicate, JSNum.orZero, JSNum.num_mul,
      JSNum.num_add, JSNum.add_num_num, JSNum.num_div]
  have h := annual_ratio_computation Model.v2 zeroBurn yearEndState
  have h12 : (yearEndState.month + 1) % 12 = 0 := by norm_num [yearEndState]
  exact ⟨hz, (h.2 h12).2.1.1, (h.2 h12).2.1.2 hz⟩

/-- A step actually runs: the month counter is below the configured
duration and, under Variant A, the primary treasury is strictly positive
(otherwise `simulationStep` early-returns before the pipeline). -/
def stepRuns (p : Params) (model : Model) (s : SimState) : Prop :=
  s.month < p.simulation_months ∧
  (model = Model.v1 →
    ∃ tr : ℚ, s.woofi_treasury_balance = JSNum.num tr ∧ 0 < tr)

/-- The code-level condition under which the month's buying pressure is
zero: under Variant A the staker-rewards × adoption product vanishes;
under Variant B the buyback allocation is zero.  Both depend only on the
parameters, since fees are recomputed identically every month. -/
def zeroPressure (p : Params) : Model → Prop
  | Model.v1 => ∃ r a : ℚ,
      (distributeFeesV1 p (calculateFees p)).total_staker_rewards_usd =
        JSNum.num r ∧
      p.auto_compound_adoption_rate = JSNum.num a ∧
      0 ≤ r ∧ 0 ≤ a ∧ r * a = 0
  | Model.v2 =>
      (distributeFeesV2 p (calculateFees p)).buyback_burn_amount = JSNum.num 0

/-- The `x > 0 ? 0 / x : 0` pattern of `calculatePriceImpact` always
yields 0, whatever the divisor. -/
theorem guarded_zero_div (x : JSNum) :
    (if JSNum.lt (JSNum.num 0) x = true then JSNum.num 0 / x
     else JSNum.num 0) = JSNum.num 0 := by
  cases x with
  | num c =>
      by_cases h : (0 : ℚ) < c
      · rw [if_pos (by simp [JSNum.num_lt, h]),
          JSNum.num_div 0 c (ne_of_gt h), zero_div]
      · rw [if_neg (by simp [JSNum.num_lt, h])]
  | nan => rw [if_neg (by simp [JSNum.lt])]
  | inf => rfl
  | ninf => rw [if_neg (by simp [JSNum.lt])]

/-- `buying_pressure_usd` of `calculatePriceImpact`: the auto-compound
USD under Variant A, the buyback USD under Variant B. -/
def pressureField (model : Model) (b : BurnData) : JSNum :=
  match model with
  | Model.v1 => b.auto_compound_usd
  | Model.v2 => b.buyback_usd

/-- Under `zeroPressure` (and a positive Variant-A treasury) the burn
stage produces a zero burn and zero buying pressure. -/
theorem burn_zero_outputs (p : Params) (model : Model) (s : SimState)
    (hzp : zeroPressure p model)
    (htr : model = Model.v1 →
      ∃ tr : ℚ, s.woofi_treasury_balance = JSNum.num tr ∧ 0 < tr) :
    (calculateBuybackAndBurn model p s
      (distributeFees model p (calculateFees p))).tokens_burned =
      JSNum.num 0 ∧
    pressureField model
      (calculateBuybackAndBurn model p s
        (distributeFees model p (calculateFees p))) =
      JSNum.num 0 := by
  cases model
  · obtain ⟨r, a, hr, ha, hr0, ha0, hra⟩ := hzp
    obtain ⟨tr, htre, htr0⟩ := htr rfl
    have hg1 : (JSNum.lt (distributeFeesV1 p
          (calculateFees p)).total_staker_rewards_usd (JSNum.num 0) ||
        !(distributeFeesV1 p (calculateFees p)).total_staker_rewards_usd.isFinite)
        = false := by
      rw [hr]
      simp [JSNum.num_lt, JSNum.num_isFinite, not_lt.mpr hr0]
    by_cases hg2 : (JSNum.le s.woo_price (JSNum.num 0) ||
        !s.woo_price.isFinite) = true
    · constructor <;>
        simp [pressureField, calculateBuybackAndBurn, distributeFees,
          calculateAutoCompoundAndBurn, hg1, hg2]
    · have hmul : (distributeFeesV1 p
          (calculateFees p)).total_staker_rewards_usd *
          p.auto_compound_adoption_rate = JSNum.num 0 := by
        rw [hr, ha, JSNum.num_mul, hra]
      have hlt : JSNum.lt (JSNum.num 0)
          ((distributeFeesV1 p (calculateFees p)).total_staker_rewards_usd *
            p.auto_compound_adoption_rate) = false := by
        rw [hmul]
        simp [JSNum.num_lt]
      constructor
      · simp only [calculateBuybackAndBurn, distributeFees,
          calculateAutoCompoundAndBurn, hg1, Bool.false_eq_true, if_false,
          hg2, hlt, htre]
        rw [JSNum.num_jsMin, min_eq_left (le_of_lt htr0), JSNum.num_add]
        norm_num
      · simp only [pressureField, calculateBuybackAndBurn, distributeFees,
          calculateAutoCompoundAndBurn, hg1, Bool.false_eq_true, if_false,
          hg2, hmul]
  · have hzp2 := hzp
    rw [zeroPressure] at hzp2
    have hg1 : (JSNum.lt (distributeFeesV2 p
          (calculateFees p)).buyback_burn_amount (JSNum.num 0) ||
        !(distributeFeesV2 p (calculateFees p)).buyback_burn_amount.isFinite)
        = false := by
      rw [hzp2]
      simp [JSNum.num_lt, JSNum.num_isFinite]
    by_cases hg2 : (JSNum.le s.woo_price (JSNum.num 0) ||
        !s.woo_price.isFinite) = true
    · constructor <;>
        simp [pressureField, calculateBuybackAndBurn, distributeFees,
          calculateBuybackAndBurnV2, hg1, hg2]
    · have hpf : s.woo_price.isFinite = true := by
        cases h : s.woo_price.isFinite
        · exact absurd (by simp [h]) hg2
        · rfl
      have hle : JSNum.le s.woo_price (JSNum.num 0) = false := by
        cases h : JSNum.le s.woo_price (JSNum.num 0)
        · rfl
        · exact absurd (by simp [h]) hg2
      have hg2f : (JSNum.le s.woo_price (JSNum.num 0) ||
          !s.woo_price.isFinite) = false := by
        simp [hle, hpf]
      obtain ⟨pp, hpp⟩ := (JSNum.isFinite_iff _).mp hpf
      have hpp0 : (0 : ℚ) < pp := by
        rw [hpp] at hle
        simpa [JSNum.num_le, not_le] using hle
      constructor
      · simp only [calculateBuybackAndBurn, distributeFees,
          calculateBuybackAndBurnV2, hg1, Bool.false_eq_true, if_false, hg2f]
        show (distributeFeesV2 p (calculateFees p)).buyback_burn_amount /
          s.woo_price = JSNum.num 0
        rw [hzp2, hpp, JSNum.num_div 0 pp (ne_of_gt hpp0), zero_div]
      · simp only [pressureField, calculateBuybackAndBurn, distributeFees,
          calculateBuybackAndBurnV2, hg1, Bool.false_eq_true, if_false, hg2f]
        exact hzp2


/-- `calculatePriceImpact` on a zero burn and zero buying pressure:
the permanent impact is 0 and the total temporary impact is exactly the
decayed carry `t * (1 - d)`. -/
theorem calculatePriceImpact_of_zero (p : Params) (model : Model)
    (s : SimState) (b : BurnData) (t d se be : ℚ)
    (hb0 : b.tokens_burned = JSNum.num 0)
    (hp0 : pressureField model b = JSNum.num 0)
    (ht : s.temporary_price_impact = JSNum.num t)
    (hd : p.buying_pressure_decay = JSNum.num d)
    (hse : p.supply_elasticity = JSNum.num se)
    (hbe : p.buying_pressure_elasticity = JSNum.num be) :
    (calculatePriceImpact p model s b).permanent_impact = JSNum.num 0 ∧
    (calculatePriceImpact p model s b).total_temporary_impact =
      JSNum.num (t * (1 - d)) := by
  cases model with
  | v1 =>
      have hp0' : b.auto_compound_usd = JSNum.num 0 := hp0
      constructor
      · show (if JSNum.lt (JSNum.num 0) s.circulating_supply = true then
            b.tokens_burned / s.circulating_supply else JSNum.num 0) *
            p.supply_elasticity = JSNum.num 0
        rw [hb0, guarded_zero_div, hse, JSNum.num_mul, zero_mul]
      · show s.temporary_price_impact *
            (JSNum.num 1 - p.buying_pressure_decay) +
            (if JSNum.lt (JSNum.num 0)
                ((p.monthly_woofi_swap_volume + p.monthly_woox_volume) /
                  JSNum.num 30) = true then
              b.auto_compound_usd /
                ((p.monthly_woofi_swap_volume + p.monthly_woox_volume) /
                  JSNum.num 30)
            else JSNum.num 0) * p.buying_pressure_elasticity =
            JSNum.num (t * (1 - d))
        rw [hp0', guarded_zero_div, ht, hd, hbe, JSNum.num_sub,
          JSNum.num_mul, JSNum.num_mul, JSNum.num_add, zero_mul, add_zero]
  | v2 =>
      have hp0' : b.buyback_usd = JSNum.num 0 := hp0
      constructor
      · show (if JSNum.lt (JSNum.num 0) s.circulating_supply = true then
            b.tokens_burned / s.circulating_supply else JSNum.num 0) *
            p.supply_elasticity = JSNum.num 0
        rw [hb0, guarded_zero_div, hse, JSNum.num_mul, zero_mul]
      · show s.temporary_price_impact *
            (JSNum.num 1 - p.buying_pressure_decay) +
            (if JSNum.lt (JSNum.num 0)
                ((p.monthly_woofi_swap_volume + p.monthly_woox_volume) /
                  JSNum.num 30) = true then
              b.buyback_usd /
                ((p.monthly_woofi_swap_volume + p.monthly_woox_volume) /
                  JSNum.num 30)
            else JSNum.num 0) * p.buying_pressure_elasticity =
            JSNum.num (t * (1 - d))
        rw [hp0', guarded_zero_div, ht, hd, hbe, JSNum.num_sub,
          JSNum.num_mul, JSNum.num_mul, JSNum.num_add, zero_mul, add_zero]

/-- `updatePrice` with a zero permanent impact and a nonnegative total
temporary impact passes its multiplier guard and stores the total
temporary impact into the state. -/
theorem updatePrice_temp_write (s : SimState) (pid : PriceImpactData) (t : ℚ)
    (hperm : pid.permanent_impact = JSNum.num 0)
    (htt : pid.total_temporary_impact = JSNum.num t)
    (ht0 : 0 ≤ t) :
    (updatePrice s pid).temporary_price_impact = JSNum.num t := by
  have hmul : JSNum.num 1 + pid.permanent_impact + pid.total_temporary_impact =
      JSNum.num (1 + 0 + t) := by
    rw [hperm, htt, JSNum.num_add, JSNum.num_add]
  have hg : ((JSNum.num 1 + pid.permanent_impact +
        pid.total_temporary_impact).isNaN ||
      !(JSNum.num 1 + pid.permanent_impact +
        pid.total_temporary_impact).isFinite ||
      JSNum.le (JSNum.num 1 + pid.permanent_impact +
        pid.total_temporary_impact) (JSNum.num 0)) = false := by
    rw [hmul]
    have hpos : ¬((1 : ℚ) + 0 + t ≤ 0) := by linarith
    simp [JSNum.isNaN, JSNum.num_le, hpos]
    exact ⟨rfl, by linarith⟩
  simp only [updatePrice, hg, Bool.false_eq_true, if_false]
  exact htt

/-- One running step under `zeroPressure` multiplies the carried
temporary price impact by `(1 - d)`. -/
theorem runStep_temp_decay (p : Params) (model : Model) (s : SimState)
    (t d : ℚ)
    (hzp : zeroPressure p model)
    (hrun : stepRuns p model s)
    (ht : s.temporary_price_impact = JSNum.num t)
    (hd : p.buying_pressure_decay = JSNum.num d)
    (htd0 : 0 ≤ t * (1 - d))
    (hse : p.supply_elasticity.isFinite = true)
    (hbe : p.buying_pressure_elasticity.isFinite = true) :
    (runStep p model s).temporary_price_impact = JSNum.num (t * (1 - d)) := by
  obtain ⟨hm, htr⟩ := hrun
  have hm' : ¬ p.simulation_months ≤ s.month := not_le.mpr hm
  have hdep : ¬(model = Model.v1 ∧
      JSNum.le s.woofi_treasury_balance (JSNum.num 0) = true) := by
    rintro ⟨h1, h2⟩
    obtain ⟨tr, htre, htr0⟩ := htr h1
    rw [htre, JSNum.num_le] at h2
    exact absurd (of_decide_eq_true h2) (not_le.mpr htr0)
  obtain ⟨se, hsee⟩ := (JSNum.isFinite_iff _).mp hse
  obtain ⟨be, hbee⟩ := (JSNum.isFinite_iff _).mp hbe
  obtain ⟨hb0, hp0⟩ := burn_zero_outputs p model s hzp htr
  obtain ⟨hperm, htt⟩ := calculatePriceImpact_of_zero p model s
    (calculateBuybackAndBurn model p s
      (distributeFees model p (calculateFees p)))
    t d se be hb0 hp0 ht hd hsee hbee
  rw [runStep_eq_of_runs p model s hm' hdep,
    (recordHistory_frame _ _ _).2.2.2.2.2.2.2.2.2]
  exact updatePrice_temp_write _ _ _ hperm htt htd0

/-- C7: the decay law.  With the month's buying pressure identically zero
(`zeroPressure`: a zero staker-rewards × adoption product under Variant A,
a zero buyback allocation under Variant B — the code recomputes the same
`buying_pressure_usd` every month from the parameters), a nonnegative
carried impact, a decay rate `d ∈ [0, 1]`, finite elasticities, and every
one of the `N` steps actually running, `N` steps multiply the temporary
price impact by `(1 - d) ^ N`:
`temporary_impact[t+N] = temporary_impact[t] * (1 - decay_rate) ^ N`. -/
theorem temp_impact_decay_law (p : Params) (model : Model) (s : SimState)
    (t d : ℚ) (N : ℕ)
    (hzp : zeroPressure p model)
    (ht : s.temporary_price_impact = JSNum.num t) (ht0 : 0 ≤ t)
    (hd : p.buying_pressure_decay = JSNum.num d)
    (hd0 : 0 ≤ d) (hd1 : d ≤ 1)
    (hse : p.supply_elasticity.isFinite = true)
    (hbe : p.buying_pressure_elasticity.isFinite = true)
    (hrunAll : ∀ k, k < N → stepRuns p model (runN p model k s)) :
    (runN p model N s).temporary_price_impact =
      JSNum.num (t * (1 - d) ^ N) := by
  revert hrunAll
  induction N with
  | zero =>
      intro _
      simpa [runN] using ht
  | succ n ih =>
      intro hrunAll
      have htn := ih (fun k hk => hrunAll k (Nat.lt_succ_of_lt hk))
      rw [runN_succ_back]
      have h1d0 : (0 : ℚ) ≤ 1 - d := by linarith
      have hprev0 : 0 ≤ t * (1 - d) ^ n := mul_nonneg ht0 (pow_nonneg h1d0 n)
      rw [runStep_temp_decay p model (runN p model n s) (t * (1 - d) ^ n) d
        hzp (hrunAll n (Nat.lt_succ_self n)) htn hd
        (mul_nonneg hprev0 h1d0) hse hbe]
      congr 1
      ring


/-- A zero-volume Variant-B parameter set: with no trading volume the
buyback allocation is zero, so `zeroPressure` holds.  (Other parameters
as in `config.js` defaults.) -/
def zpParams : Params :=
  { monthly_woofi_swap_volume := JSNum.num 0
    monthly_woofi_perp_volume := JSNum.num 0
    monthly_woox_volume := JSNum.num 0
    woofi_staker_share := JSNum.num (8 / 10)
    auto_compound_adoption_rate := JSNum.num (7 / 10)
    buyback_burn_share := JSNum.num (1 / 2)
    staker_share := JSNum.num (3 / 10)
    treasury_share := JSNum.num (2 / 10)
    woox_staker_bps := JSNum.num (1 / 100000)
    affiliate_share := JSNum.num (6 / 10)
    woofi_fee_rate := JSNum.num (8 / 1000000)
    supply_elasticity := JSNum.num 10
    buying_pressure_elasticity := JSNum.num (3 / 2)
    buying_pressure_decay := JSNum.num (15 / 100)
    simulation_months := 36
    initial_circulating_supply := JSNum.num 1909200000
    woox_total_fee_rate := JSNum.num (1 / 10000) }

/-- An initial state carrying a temporary price impact of 1/2. -/
def zpState : SimState :=
  { mkInitState zpParams (JSNum.num 100) (JSNum.num 10) (JSNum.num 10) with
    temporary_price_impact := JSNum.num (1 / 2) }

/-- Witness for C7 at a concrete input: one zero-pressure step decays the
temporary impact 1/2 by the factor `1 - 15/100`. -/
theorem temp_impact_decay_law_witness :
    zeroPressure zpParams Model.v2 ∧
    zpState.temporary_price_impact = JSNum.num (1 / 2) ∧
    ((0 : ℚ) ≤ 1 / 2) ∧
    zpParams.buying_pressure_decay = JSNum.num (15 / 100) ∧
    ((0 : ℚ) ≤ 15 / 100) ∧ ((15 / 100 : ℚ) ≤ 1) ∧
    zpParams.supply_elasticity.isFinite = true ∧
    zpParams.buying_pressure_elasticity.isFinite = true ∧
    (∀ k, k < 1 →
      stepRuns zpParams Model.v2 (runN zpParams Model.v2 k zpState)) ∧
    (runN zpParams Model.v2 1 zpState).temporary_price_impact =
      JSNum.num (1 / 2 * (1 - 15 / 100) ^ 1) := by
  have hzp : zeroPressure zpParams Model.v2 := by
    show (distributeFeesV2 zpParams
      (calculateFees zpParams)).buyback_burn_amount = JSNum.num 0
    norm_num [distributeFeesV2, calculateFees, zpParams, JSNum.num_mul,
      JSNum.num_add, JSNum.num_sub]
  have hrunAll : ∀ k, k < 1 →
      stepRuns zpParams Model.v2 (runN zpParams Model.v2 k zpState) := by
    intro k hk
    have hk0 : k = 0 := Nat.lt_one_iff.mp hk
    subst hk0
    exact ⟨by decide, fun h => Model.noConfusion h⟩
  refine ⟨hzp, rfl, by norm_num, rfl, by norm_num, by norm_num, rfl, rfl,
    hrunAll, ?_⟩
  exact temp_impact_decay_law zpParams Model.v2 zpState (1 / 2) (15 / 100) 1
    hzp rfl (by norm_num) rfl (by norm_num) (by norm_num) rfl rfl hrunAll
